import Mathlib

/-
  Verification development for the lordlogger telemetry ingester
  (src/main.rs).  The program reads packets from a LORD inertial/GNSS
  sensor, decodes tagged byte-span fields into typed records, and writes
  each record to a relational store.

  Shallow embedding conventions:
  * bytes are `Nat` values; multi-byte scalars are decoded little-endian;
  * IEEE-754 floats are carried as their bit patterns (extraction never
    performs float arithmetic, so the bit pattern is the whole story);
    a separate interpretation `f32ToRat` maps finite 32-bit patterns to
    exact rationals for worked examples;
  * signed integers become `Int` via two's-complement reinterpretation;
  * `Result<T, Error>` becomes `Except ExtractError T`;
  * a Rust `.unwrap()` that can abort the process is modelled by the
    `PanicOr` outcome type, whose `panic` constructor records the field
    tag whose lookup failed (the first one reached in evaluation order).
-/

set_option autoImplicit false

namespace Lord

/-- Little-endian interpretation of a byte list as an unsigned integer. -/
def leDecode : List Nat → Nat
  | [] => 0
  | b :: bs => b % 256 + 256 * leDecode bs

/-- Little-endian encoding of `n` into `size` bytes (dropping higher bits). -/
def leEncode : Nat → Nat → List Nat
  | 0, _ => []
  | size + 1, n => n % 256 :: leEncode size (n / 256)

/-- Two's-complement reinterpretation of a `w`-bit unsigned value as a
signed integer. -/
def toSigned (w n : Nat) : Int :=
  if n % 2 ^ w < 2 ^ (w - 1) then (n % 2 ^ w : Int) else (n % 2 ^ w : Int) - 2 ^ w

/-- Modelled from the spec: the Field Extractor's decode-error taxonomy for
scalar reads (spec section 7): a read past the end of the field's span fails
with `OutOfBounds`.  The extractor itself lives in the external `lordserial`
crate, not in this repository's sources. -/
inductive ExtractError where
  | outOfBounds
  deriving DecidableEq

deriving instance DecidableEq for Except

/-- A field: an opaque byte span (spec section 3; `lordserial::Field`). -/
structure Field where
  data : List Nat
  deriving DecidableEq

/-- Modelled from the spec: `lordserial::Field::extract::<T>` reduced to its
untyped core — read `size` bytes starting at byte `off` of the field's span
and interpret them little-endian; fail with `OutOfBounds` when
`off + size` exceeds the field's length (spec section 4.1). -/
def Field.extractBits (f : Field) (off size : Nat) : Except ExtractError Nat :=
  if off + size ≤ f.data.length then
    .ok (leDecode ((f.data.drop off).take size))
  else
    .error .outOfBounds

/-- A 32-bit float, represented by its bit pattern. -/
structure F32 where
  bits : Nat
  deriving DecidableEq

/-- A 64-bit float, represented by its bit pattern. -/
structure F64 where
  bits : Nat
  deriving DecidableEq

/-- `extract::<f32>(off)` — four bytes, little-endian bit pattern. -/
def Field.extractF32 (f : Field) (off : Nat) : Except ExtractError F32 :=
  (f.extractBits off 4).map F32.mk

/-- `extract::<f64>(off)` — eight bytes, little-endian bit pattern. -/
def Field.extractF64 (f : Field) (off : Nat) : Except ExtractError F64 :=
  (f.extractBits off 8).map F64.mk

/-- `extract::<i16>(off)` — two bytes, little-endian, two's complement. -/
def Field.extractI16 (f : Field) (off : Nat) : Except ExtractError Int :=
  (f.extractBits off 2).map (toSigned 16)

/-- `extract::<i8>(off)` — one byte, two's complement. -/
def Field.extractI8 (f : Field) (off : Nat) : Except ExtractError Int :=
  (f.extractBits off 1).map (toSigned 8)

/-- Exact rational value of a finite little-endian 32-bit IEEE-754 pattern
(`none` for infinities and NaNs).  Used only to state worked examples about
decoded bit patterns; the program itself never computes with floats. -/
def f32ToRat (b : Nat) : Option ℚ :=
  let sign : Nat := b / 2 ^ 31 % 2
  let expo : Nat := b / 2 ^ 23 % 2 ^ 8
  let mant : Nat := b % 2 ^ 23
  if expo = 255 then none
  else
    let mag : ℚ :=
      if expo = 0 then (mant * 2 : ℚ) / 2 ^ 150
      else ((2 ^ 23 + mant) * 2 ^ expo : ℚ) / 2 ^ 150
    some (if sign = 1 then -mag else mag)

/-- A packet payload: a finite association of field tags to fields
(spec section 3: unordered mapping, unique tags). -/
structure Payload where
  fields : List (Nat × Field)
  deriving DecidableEq

/-- `payload.get_field(tag)` — lookup of a tag, absent tags give `none`. -/
def Payload.get_field (pl : Payload) (tag : Nat) : Option Field :=
  pl.fields.lookup tag

/-- A packet header: just the descriptor byte, as used by `main`. -/
structure Header where
  descriptor : Nat
  deriving DecidableEq

/-- A decoded transport unit (spec section 3; `lordserial::Packet`). -/
structure Packet where
  header : Header
  payload : Payload
  deriving DecidableEq

/-- `Vector3f` (src/main.rs:14-19). -/
structure Vector3f where
  x : F32
  y : F32
  z : F32
  deriving DecidableEq

/-- `Vector3f::extract` (src/main.rs:21-29): three chained `f32` reads at
relative offsets 0, 4, 8; `?` propagates the first failure. -/
def Vector3f.extract (field : Field) : Except ExtractError Vector3f := do
  let x ← field.extractF32 0
  let y ← field.extractF32 4
  let z ← field.extractF32 8
  pure ⟨x, y, z⟩

/-- `Quaternion` (src/main.rs:31-37). -/
structure Quaternion where
  q0 : F32
  q1 : F32
  q2 : F32
  q3 : F32
  deriving DecidableEq

/-- `Quaternion::extract` (src/main.rs:39-48): four chained `f32` reads at
relative offsets 0, 4, 8, 12. -/
def Quaternion.extract (field : Field) : Except ExtractError Quaternion := do
  let q0 ← field.extractF32 0
  let q1 ← field.extractF32 4
  let q2 ← field.extractF32 8
  let q3 ← field.extractF32 12
  pure ⟨q0, q1, q2, q3⟩

/-- Outcome of Rust code that may return a value, return an error (`?` on a
`Result`), or abort the process (`.unwrap()` on `None`).  `panic` records the
tag whose `get_field(..).unwrap()` aborted — the first one reached in the
source's evaluation order. -/
inductive PanicOr (ε α : Type) where
  | ok : α → PanicOr ε α
  | err : ε → PanicOr ε α
  | panic : Nat → PanicOr ε α
  deriving DecidableEq

def PanicOr.bind {ε α β : Type} : PanicOr ε α → (α → PanicOr ε β) → PanicOr ε β
  | .ok a, f => f a
  | .err e, _ => .err e
  | .panic t, _ => .panic t

instance {ε : Type} : Monad (PanicOr ε) where
  pure := .ok
  bind := PanicOr.bind

/-- `packet.payload.get_field(tag).unwrap()`: yields the field when the tag
is present and aborts the process (models Rust's `Option::unwrap` panic)
when it is absent. -/
def Payload.getFieldUnwrap {ε : Type} (pl : Payload) (tag : Nat) : PanicOr ε Field :=
  match pl.get_field tag with
  | some f => .ok f
  | none => .panic tag

/-- Lift a fallible extraction into the panic-aware outcome (Rust's `?`). -/
def liftE {ε α : Type} : Except ε α → PanicOr ε α
  | .ok a => .ok a
  | .error e => .err e

/-- `ImuData` (src/main.rs:50-62). -/
structure ImuData where
  accel : Vector3f
  gyro : Vector3f
  mag : Vector3f
  baro : F32
  delta_theta : Vector3f
  delta_velocity : Vector3f
  quat : Quaternion
  euler_angles : Vector3f
  tow : F64
  week : Int
  deriving DecidableEq

/-- `ImuData::new` (src/main.rs:64-79), in the source's evaluation order:
each struct-literal field looks its tag up (`.unwrap()`, panicking when
absent) and then decodes it (`?`, propagating the extraction error). -/
def ImuData.new (packet : Packet) : PanicOr ExtractError ImuData := do
  let f04 ← packet.payload.getFieldUnwrap 0x04
  let accel ← liftE (Vector3f.extract f04)
  let f05 ← packet.payload.getFieldUnwrap 0x05
  let gyro ← liftE (Vector3f.extract f05)
  let f06 ← packet.payload.getFieldUnwrap 0x06
  let mag ← liftE (Vector3f.extract f06)
  let f17 ← packet.payload.getFieldUnwrap 0x17
  let baro ← liftE (f17.extractF32 0)
  let f07 ← packet.payload.getFieldUnwrap 0x07
  let delta_theta ← liftE (Vector3f.extract f07)
  let f08 ← packet.payload.getFieldUnwrap 0x08
  let delta_velocity ← liftE (Vector3f.extract f08)
  let f0A ← packet.payload.getFieldUnwrap 0x0A
  let quat ← liftE (Quaternion.extract f0A)
  let f0C ← packet.payload.getFieldUnwrap 0x0C
  let euler_angles ← liftE (Vector3f.extract f0C)
  let f12 ← packet.payload.getFieldUnwrap 0x12
  let tow ← liftE (f12.extractF64 0)
  let f12b ← packet.payload.getFieldUnwrap 0x12
  let week ← liftE (f12b.extractI16 8)
  pure ⟨accel, gyro, mag, baro, delta_theta, delta_velocity, quat, euler_angles, tow, week⟩

/-- One storage-write parameter, typed as the `postgres` crate types it. -/
inductive Param where
  | f32 : F32 → Param
  | f64 : F64 → Param
  | i16 : Int → Param
  deriving DecidableEq

/-- The 25-element parameter array of the `imu_data` insert
(src/main.rs:234-260), in source order. -/
def imuParams (d : ImuData) : List Param :=
  [.f32 d.accel.x, .f32 d.accel.y, .f32 d.accel.z,
   .f32 d.gyro.x, .f32 d.gyro.y, .f32 d.gyro.z,
   .f32 d.mag.x, .f32 d.mag.y, .f32 d.mag.z,
   .f32 d.baro,
   .f32 d.delta_theta.x, .f32 d.delta_theta.y, .f32 d.delta_theta.z,
   .f32 d.delta_velocity.x, .f32 d.delta_velocity.y, .f32 d.delta_velocity.z,
   .f32 d.quat.q0, .f32 d.quat.q1, .f32 d.quat.q2, .f32 d.quat.q3,
   .f32 d.euler_angles.x, .f32 d.euler_angles.y, .f32 d.euler_angles.z,
   .f64 d.tow,
   .i16 d.week]

/-- How the `imu_data` VALUES clause groups the 25 parameters into column
literals (src/main.rs:221-232): `ROW($1,$2,$3)` … — three 3-component rows,
one scalar, two 3-component rows, one 4-component row, one 3-component row,
then the tow and week scalars. -/
def imuRowShape : List Nat := [3, 3, 3, 1, 3, 3, 4, 3, 1, 1]

/-- The nine field tags `ImuData::new` looks up, in source order
(src/main.rs:67-76; 0x12 is read for both tow and week). -/
def imuRequiredTags : List Nat := [0x04, 0x05, 0x06, 0x17, 0x07, 0x08, 0x0A, 0x0C, 0x12]

/-- One element of the GNSS insert's parameter array, e.g.
`packet.payload.get_field(tag).unwrap().extract::<f64>(off)?`
(src/main.rs:272-318): its own lookup (panicking when the tag is absent)
followed by an `f64` read (`?` propagating the failure). -/
def fieldParamF64 (packet : Packet) (tag off : Nat) : PanicOr ExtractError Param := do
  let f ← packet.payload.getFieldUnwrap tag
  let v ← liftE (f.extractF64 off)
  pure (.f64 v)

/-- As `fieldParamF64`, for `extract::<f32>(off)`. -/
def fieldParamF32 (packet : Packet) (tag off : Nat) : PanicOr ExtractError Param := do
  let f ← packet.payload.getFieldUnwrap tag
  let v ← liftE (f.extractF32 off)
  pure (.f32 v)

/-- As `fieldParamF64`, for `extract::<i16>(off)`. -/
def fieldParamI16 (packet : Packet) (tag off : Nat) : PanicOr ExtractError Param := do
  let f ← packet.payload.getFieldUnwrap tag
  let v ← liftE (f.extractI16 off)
  pure (.i16 v)

/-- As `fieldParamF64`, for `extract::<i8>(off)? as i16`
(src/main.rs:315-316): the 8-bit signed value is widened to a 16-bit
parameter; in this embedding both are mathematical integers, so the Rust
`as i16` widening is value-preserving by construction. -/
def fieldParamI8w (packet : Packet) (tag off : Nat) : PanicOr ExtractError Param := do
  let f ← packet.payload.getFieldUnwrap tag
  let v ← liftE (f.extractI8 off)
  pure (.i16 v)

/-- The scalar type of one element of the GNSS insert's parameter array. -/
inductive ElemType where
  | ef64
  | ef32
  | ei16
  | ei8w
  deriving DecidableEq

/-- One element of the GNSS insert's parameter array: `(tag, ty, off)` stands
for the source expression
`packet.payload.get_field(tag).unwrap().extract::<ty>(off)?`, with the
`as i16` widening applied after an `i8` read (src/main.rs:315-316). -/
def extractElem (packet : Packet) : Nat × ElemType × Nat → PanicOr ExtractError Param
  | (tag, .ef64, off) => fieldParamF64 packet tag off
  | (tag, .ef32, off) => fieldParamF32 packet tag off
  | (tag, .ei16, off) => fieldParamI16 packet tag off
  | (tag, .ei8w, off) => fieldParamI8w packet tag off

/-- The 41 elements of the `gnss_data` insert's parameter array
(src/main.rs:272-318), row for row in source order: field tag, scalar type,
byte offset. -/
def gnssElems : List (Nat × ElemType × Nat) :=
  [(0x03, .ef64, 0), (0x03, .ef64, 8), (0x03, .ef64, 16), (0x03, .ef64, 24),
   (0x03, .ef32, 32), (0x03, .ef32, 36), (0x03, .ei16, 40),
   (0x04, .ef64, 0), (0x04, .ef64, 8), (0x04, .ef64, 16),
   (0x04, .ef32, 24), (0x04, .ei16, 28),
   (0x05, .ef32, 0), (0x05, .ef32, 4), (0x05, .ef32, 8), (0x05, .ef32, 12),
   (0x05, .ef32, 16), (0x05, .ef32, 20), (0x05, .ef32, 24), (0x05, .ef32, 28),
   (0x05, .ei16, 32),
   (0x06, .ef32, 0), (0x06, .ef32, 4), (0x06, .ef32, 8), (0x06, .ef32, 12),
   (0x06, .ei16, 16),
   (0x07, .ef32, 0), (0x07, .ef32, 4), (0x07, .ef32, 8), (0x07, .ef32, 12),
   (0x07, .ef32, 16), (0x07, .ef32, 20), (0x07, .ef32, 24), (0x07, .ei16, 28),
   (0x09, .ef64, 0), (0x09, .ei16, 8), (0x09, .ei16, 10),
   (0x0B, .ei8w, 0), (0x0B, .ei8w, 1), (0x0B, .ei16, 2), (0x0B, .ei16, 4)]

/-- Left-to-right effectful map: Rust evaluates the elements of an array
literal in order, and `?`/`.unwrap()` abort at the first failing element. -/
def mapPanic {ε α β : Type} (f : α → PanicOr ε β) : List α → PanicOr ε (List β)
  | [] => .ok []
  | a :: as => f a >>= fun b => mapPanic f as >>= fun bs => .ok (b :: bs)

/-- The 41-element parameter array of the `gnss_data` insert
(src/main.rs:271-319): every element does its own tag lookup (`.unwrap()`,
panicking when the tag is absent) followed by one scalar extraction (`?`,
propagating the failure), in source order. -/
def gnssParams (packet : Packet) : PanicOr ExtractError (List Param) :=
  mapPanic (extractElem packet) gnssElems

/-- The seven field tags of the GNSS branch, in first-use order
(src/main.rs:272-318). -/
def gnssRequiredTags : List Nat := [0x03, 0x04, 0x05, 0x06, 0x07, 0x09, 0x0B]

/-- A storage write as observed by the store: which table and which
parameter list. -/
inductive Write where
  | imu : List Param → Write
  | gnss : List Param → Write
  deriving DecidableEq

/-- One pass of the ingestion loop's body (src/main.rs:202-325): when a
packet is available, dispatch on `packet.header.descriptor` — `0x80`
assembles an `ImuData` and inserts it, `0x81` extracts the GNSS parameters
and inserts them, anything else does nothing.  The returned list holds the
writes issued by this pass. -/
def loopBody (pkt : Option Packet) : PanicOr ExtractError (List Write) :=
  match pkt with
  | none => .ok []
  | some packet =>
    if packet.header.descriptor = 0x80 then
      ImuData.new packet >>= fun d => .ok [.imu (imuParams d)]
    else if packet.header.descriptor = 0x81 then
      gnssParams packet >>= fun ps => .ok [.gnss ps]
    else
      .ok []

/-- The ingestion loop run over a finite prefix of the packet source's
answers (`none` = "no packet available yet", src/main.rs:203).  The Rust
loop has no exit: it either consumes the next answer or dies on the first
panic or propagated error, so the writes accumulate until the first
failure. -/
def runLoop : List (Option Packet) → PanicOr ExtractError (List Write)
  | [] => .ok []
  | pkt :: rest =>
    loopBody pkt >>= fun ws =>
      runLoop rest >>= fun ws' => .ok (ws ++ ws')

/-- The writes an outcome actually issued: a failed pass issues none. -/
def PanicOr.writes : PanicOr ExtractError (List Write) → List Write
  | .ok ws => ws
  | .err _ => []
  | .panic _ => []

/-- The storage type of one parameter. -/
inductive PType where
  | tf32
  | tf64
  | ti16
  deriving DecidableEq

/-- The storage type of a parameter value. -/
def Param.ptype : Param → PType
  | .f32 _ => .tf32
  | .f64 _ => .tf64
  | .i16 _ => .ti16

/-- The storage type an element of the GNSS parameter table produces
(the two 8-bit reads are widened to 16-bit parameters). -/
def ElemType.ptype : ElemType → PType
  | .ef64 => .tf64
  | .ef32 => .tf32
  | .ei16 => .ti16
  | .ei8w => .ti16

/-- Modelled from the spec: the documented `gnss_data` column order and
types (spec section 6 — 41 scalar columns: four float64, two float32, an
int16; three float64, a float32, an int16; eight float32, an int16; four
float32, an int16; seven float32, an int16; a float64, two int16; four
int16). -/
def gnssColumnTypes : List PType :=
  [.tf64, .tf64, .tf64, .tf64, .tf32, .tf32, .ti16,
   .tf64, .tf64, .tf64, .tf32, .ti16,
   .tf32, .tf32, .tf32, .tf32, .tf32, .tf32, .tf32, .tf32, .ti16,
   .tf32, .tf32, .tf32, .tf32, .ti16,
   .tf32, .tf32, .tf32, .tf32, .tf32, .tf32, .tf32, .ti16,
   .tf64, .ti16, .ti16,
   .ti16, .ti16, .ti16, .ti16]

/-- Modelled from the spec: the documented `imu_data` flattened column
types (spec section 6 — eight three/four-component float32 composites
become their components, then float32 baro inside, float64 tow, int16
week). -/
def imuColumnTypes : List PType :=
  [.tf32, .tf32, .tf32, .tf32, .tf32, .tf32, .tf32, .tf32, .tf32,
   .tf32,
   .tf32, .tf32, .tf32, .tf32, .tf32, .tf32,
   .tf32, .tf32, .tf32, .tf32,
   .tf32, .tf32, .tf32,
   .tf64, .ti16]

/-- Whether a fallible extraction succeeded. -/
def exOk {ε α : Type} : Except ε α → Bool
  | .ok _ => true
  | .error _ => false

/-- Whether the decoder `ImuData::new` applies to `tag` succeeds on the
packet: the tag must be present and its assigned decode (src/main.rs:67-76)
must succeed.  Tags `ImuData::new` never reads are vacuously fine. -/
def imuTagOk (p : Packet) (tag : Nat) : Bool :=
  match p.payload.get_field tag with
  | none => false
  | some f =>
    if tag = 0x17 then exOk (f.extractF32 0)
    else if tag = 0x0A then exOk (Quaternion.extract f)
    else if tag = 0x12 then exOk (f.extractF64 0) && exOk (f.extractI16 8)
    else if tag ∈ [0x04, 0x05, 0x06, 0x07, 0x08, 0x0C] then exOk (Vector3f.extract f)
    else true

/-- All nine IMU tags are present and decode successfully. -/
def imuFullyDecodable (p : Packet) : Bool :=
  imuRequiredTags.all (imuTagOk p)

/-- Whether every extraction the GNSS branch performs on `tag`
(src/main.rs:272-318) succeeds, the tag being present. -/
def gnssTagOk (p : Packet) (tag : Nat) : Bool :=
  match p.payload.get_field tag with
  | none => false
  | some f =>
    if tag = 0x03 then
      exOk (f.extractF64 0) && exOk (f.extractF64 8) && exOk (f.extractF64 16) &&
      exOk (f.extractF64 24) && exOk (f.extractF32 32) && exOk (f.extractF32 36) &&
      exOk (f.extractI16 40)
    else if tag = 0x04 then
      exOk (f.extractF64 0) && exOk (f.extractF64 8) && exOk (f.extractF64 16) &&
      exOk (f.extractF32 24) && exOk (f.extractI16 28)
    else if tag = 0x05 then
      exOk (f.extractF32 0) && exOk (f.extractF32 4) && exOk (f.extractF32 8) &&
      exOk (f.extractF32 12) && exOk (f.extractF32 16) && exOk (f.extractF32 20) &&
      exOk (f.extractF32 24) && exOk (f.extractF32 28) && exOk (f.extractI16 32)
    else if tag = 0x06 then
      exOk (f.extractF32 0) && exOk (f.extractF32 4) && exOk (f.extractF32 8) &&
      exOk (f.extractF32 12) && exOk (f.extractI16 16)
    else if tag = 0x07 then
      exOk (f.extractF32 0) && exOk (f.extractF32 4) && exOk (f.extractF32 8) &&
      exOk (f.extractF32 12) && exOk (f.extractF32 16) && exOk (f.extractF32 20) &&
      exOk (f.extractF32 24) && exOk (f.extractI16 28)
    else if tag = 0x09 then
      exOk (f.extractF64 0) && exOk (f.extractI16 8) && exOk (f.extractI16 10)
    else if tag = 0x0B then
      exOk (f.extractI8 0) && exOk (f.extractI8 1) && exOk (f.extractI16 2) &&
      exOk (f.extractI16 4)
    else true

/-- Whether one element `(tag, ty, off)` of the GNSS parameter table would
succeed on the packet: the tag is present and its single scalar extraction
succeeds. -/
def exElemOk (p : Packet) (tag : Nat) (ty : ElemType) (off : Nat) : Bool :=
  match p.payload.get_field tag with
  | none => false
  | some f =>
    match ty with
    | .ef64 => exOk (f.extractF64 off)
    | .ef32 => exOk (f.extractF32 off)
    | .ei16 => exOk (f.extractI16 off)
    | .ei8w => exOk (f.extractI8 off)

/-- All seven GNSS tags are present and every extraction on them succeeds. -/
def gnssFullyDecodable (p : Packet) : Bool :=
  gnssRequiredTags.all (gnssTagOk p)

/-- A fully-populated IMU packet: field 0x04 carries the worked-example
bytes for the vector (1.0, 2.0, 3.0); the remaining fields are zero-filled
at their minimal lengths. -/
def pImuFull : Packet :=
  ⟨⟨0x80⟩, ⟨[
    (0x04, ⟨[0, 0, 128, 63, 0, 0, 0, 64, 0, 0, 64, 64]⟩),
    (0x05, ⟨List.replicate 12 0⟩),
    (0x06, ⟨List.replicate 12 0⟩),
    (0x17, ⟨List.replicate 4 0⟩),
    (0x07, ⟨List.replicate 12 0⟩),
    (0x08, ⟨List.replicate 12 0⟩),
    (0x0A, ⟨List.replicate 16 0⟩),
    (0x0C, ⟨List.replicate 12 0⟩),
    (0x12, ⟨List.replicate 10 0⟩)]⟩⟩

/-- The record `ImuData::new` produces on `pImuFull`. -/
def dImuFull : ImuData :=
  ⟨⟨⟨0x3F800000⟩, ⟨0x40000000⟩, ⟨0x40400000⟩⟩,
   ⟨⟨0⟩, ⟨0⟩, ⟨0⟩⟩, ⟨⟨0⟩, ⟨0⟩, ⟨0⟩⟩, ⟨0⟩,
   ⟨⟨0⟩, ⟨0⟩, ⟨0⟩⟩, ⟨⟨0⟩, ⟨0⟩, ⟨0⟩⟩,
   ⟨⟨0⟩, ⟨0⟩, ⟨0⟩, ⟨0⟩⟩, ⟨⟨0⟩, ⟨0⟩, ⟨0⟩⟩, ⟨0⟩, 0⟩

/-- An IMU packet with an empty payload: the very first lookup (0x04)
panics. -/
def pImuMissing : Packet := ⟨⟨0x80⟩, ⟨[]⟩⟩

/-- An IMU packet whose acceleration field is present but only 4 bytes
long: the second component read (offset 4) fails. -/
def pImuShort : Packet := ⟨⟨0x80⟩, ⟨[(0x04, ⟨[0, 0, 0, 0]⟩)]⟩⟩

/-- A fully-populated GNSS packet; the fix-quality field 0x0B carries
fix type byte 255 (i8 value -1) and satellite count 7. -/
def pGnssFull : Packet :=
  ⟨⟨0x81⟩, ⟨[
    (0x03, ⟨List.replicate 42 0⟩),
    (0x04, ⟨List.replicate 30 0⟩),
    (0x05, ⟨List.replicate 34 0⟩),
    (0x06, ⟨List.replicate 18 0⟩),
    (0x07, ⟨List.replicate 30 0⟩),
    (0x09, ⟨List.replicate 12 0⟩),
    (0x0B, ⟨[255, 7, 0, 0, 0, 0]⟩)]⟩⟩

/-- A GNSS packet whose fix-quality field has only 5 of the 6 required
bytes. -/
def pGnssShort : Packet := ⟨⟨0x81⟩, ⟨[(0x0B, ⟨[0, 0, 0, 0, 0]⟩)]⟩⟩

/-- A packet with an unrecognized descriptor. -/
def pUnknown : Packet := ⟨⟨0x42⟩, ⟨[]⟩⟩

/-- The parameter list the GNSS branch produces on `pGnssFull`. -/
def gnssFullPs : List Param :=
  [.f64 ⟨0⟩, .f64 ⟨0⟩, .f64 ⟨0⟩, .f64 ⟨0⟩, .f32 ⟨0⟩, .f32 ⟨0⟩, .i16 0,
   .f64 ⟨0⟩, .f64 ⟨0⟩, .f64 ⟨0⟩, .f32 ⟨0⟩, .i16 0,
   .f32 ⟨0⟩, .f32 ⟨0⟩, .f32 ⟨0⟩, .f32 ⟨0⟩, .f32 ⟨0⟩, .f32 ⟨0⟩, .f32 ⟨0⟩,
   .f32 ⟨0⟩, .i16 0,
   .f32 ⟨0⟩, .f32 ⟨0⟩, .f32 ⟨0⟩, .f32 ⟨0⟩, .i16 0,
   .f32 ⟨0⟩, .f32 ⟨0⟩, .f32 ⟨0⟩, .f32 ⟨0⟩, .f32 ⟨0⟩, .f32 ⟨0⟩, .f32 ⟨0⟩,
   .i16 0,
   .f64 ⟨0⟩, .i16 0, .i16 0,
   .i16 (-1), .i16 7, .i16 0, .i16 0]

theorem pure_ok {ε α : Type} (a : α) : (pure a : PanicOr ε α) = .ok a := rfl

theorem bind_ok {ε α β : Type} {x : PanicOr ε α} {f : α → PanicOr ε β} {b : β} :
    x >>= f = .ok b ↔ ∃ a, x = .ok a ∧ f a = .ok b := by
  cases x <;> simp [Bind.bind, PanicOr.bind]

theorem bind_panic {ε α β : Type} {x : PanicOr ε α} {f : α → PanicOr ε β} {t : Nat} :
    x >>= f = .panic t ↔ x = .panic t ∨ ∃ a, x = .ok a ∧ f a = .panic t := by
  cases x <;> simp [Bind.bind, PanicOr.bind]

theorem bind_err {ε α β : Type} {x : PanicOr ε α} {f : α → PanicOr ε β} {e : ε} :
    x >>= f = .err e ↔ x = .err e ∨ ∃ a, x = .ok a ∧ f a = .err e := by
  cases x <;> simp [Bind.bind, PanicOr.bind]

theorem liftE_ok {ε α : Type} {x : Except ε α} {a : α} :
    liftE x = .ok a ↔ x = .ok a := by
  cases x <;> simp [liftE]

theorem liftE_panic {ε α : Type} {x : Except ε α} {t : Nat} :
    ¬ liftE x = .panic t := by
  cases x <;> simp [liftE]

theorem liftE_err {ε α : Type} {x : Except ε α} {e : ε} :
    liftE x = .err e ↔ x = .error e := by
  cases x <;> simp [liftE]

theorem getFieldUnwrap_ok {ε : Type} {pl : Payload} {tag : Nat} {f : Field} :
    (pl.getFieldUnwrap tag : PanicOr ε Field) = .ok f ↔ pl.get_field tag = some f := by
  unfold Payload.getFieldUnwrap
  cases pl.get_field tag <;> simp

theorem getFieldUnwrap_panic {ε : Type} {pl : Payload} {tag t : Nat} :
    (pl.getFieldUnwrap tag : PanicOr ε Field) = .panic t ↔ pl.get_field tag = none ∧ t = tag := by
  unfold Payload.getFieldUnwrap
  cases pl.get_field tag <;> simp [eq_comm]

theorem getFieldUnwrap_err {ε : Type} {pl : Payload} {tag : Nat} {e : ε} :
    ¬ pl.getFieldUnwrap tag = .err e := by
  unfold Payload.getFieldUnwrap
  cases pl.get_field tag <;> simp

theorem pure_ok_iff {ε α : Type} {a b : α} : (pure a : PanicOr ε α) = .ok b ↔ a = b := by
  simp [pure_ok]

theorem panicOr_bind_assoc {ε α β γ : Type} (x : PanicOr ε α)
    (f : α → PanicOr ε β) (g : β → PanicOr ε γ) :
    (x >>= f) >>= g = x >>= fun a => f a >>= g := by
  cases x <;> rfl

theorem panicOr_bind_ok_right {ε α : Type} (x : PanicOr ε α) :
    (x >>= fun a => (.ok a : PanicOr ε α)) = x := by
  cases x <;> rfl

theorem fieldParamF64_ok {p : Packet} {tag off : Nat} {pr : Param} :
    fieldParamF64 p tag off = .ok pr ↔
      ∃ f, p.payload.get_field tag = some f ∧
        ∃ v, f.extractF64 off = .ok v ∧ pr = .f64 v := by
  simp only [fieldParamF64, bind_ok, pure_ok_iff, getFieldUnwrap_ok, liftE_ok]
  aesop

theorem fieldParamF32_ok {p : Packet} {tag off : Nat} {pr : Param} :
    fieldParamF32 p tag off = .ok pr ↔
      ∃ f, p.payload.get_field tag = some f ∧
        ∃ v, f.extractF32 off = .ok v ∧ pr = .f32 v := by
  simp only [fieldParamF32, bind_ok, pure_ok_iff, getFieldUnwrap_ok, liftE_ok]
  aesop

theorem fieldParamI16_ok {p : Packet} {tag off : Nat} {pr : Param} :
    fieldParamI16 p tag off = .ok pr ↔
      ∃ f, p.payload.get_field tag = some f ∧
        ∃ v, f.extractI16 off = .ok v ∧ pr = .i16 v := by
  simp only [fieldParamI16, bind_ok, pure_ok_iff, getFieldUnwrap_ok, liftE_ok]
  aesop

theorem fieldParamI8w_ok {p : Packet} {tag off : Nat} {pr : Param} :
    fieldParamI8w p tag off = .ok pr ↔
      ∃ f, p.payload.get_field tag = some f ∧
        ∃ v, f.extractI8 off = .ok v ∧ pr = .i16 v := by
  simp only [fieldParamI8w, bind_ok, pure_ok_iff, getFieldUnwrap_ok, liftE_ok]
  aesop

theorem fieldParamF64_panic {p : Packet} {tag off t : Nat} :
    fieldParamF64 p tag off = .panic t ↔
      p.payload.get_field tag = none ∧ t = tag := by
  simp only [fieldParamF64, bind_panic, getFieldUnwrap_panic, getFieldUnwrap_ok, liftE_panic,
    bind_ok, liftE_ok, pure_ok]
  aesop

theorem fieldParamF32_panic {p : Packet} {tag off t : Nat} :
    fieldParamF32 p tag off = .panic t ↔
      p.payload.get_field tag = none ∧ t = tag := by
  simp only [fieldParamF32, bind_panic, getFieldUnwrap_panic, getFieldUnwrap_ok, liftE_panic,
    bind_ok, liftE_ok, pure_ok]
  aesop

theorem fieldParamI16_panic {p : Packet} {tag off t : Nat} :
    fieldParamI16 p tag off = .panic t ↔
      p.payload.get_field tag = none ∧ t = tag := by
  simp only [fieldParamI16, bind_panic, getFieldUnwrap_panic, getFieldUnwrap_ok, liftE_panic,
    bind_ok, liftE_ok, pure_ok]
  aesop

theorem fieldParamI8w_panic {p : Packet} {tag off t : Nat} :
    fieldParamI8w p tag off = .panic t ↔
      p.payload.get_field tag = none ∧ t = tag := by
  simp only [fieldParamI8w, bind_panic, getFieldUnwrap_panic, getFieldUnwrap_ok, liftE_panic,
    bind_ok, liftE_ok, pure_ok]
  aesop

theorem fieldParamF64_err {p : Packet} {tag off : Nat} {e : ExtractError} :
    fieldParamF64 p tag off = .err e ↔
      ∃ f, p.payload.get_field tag = some f ∧ f.extractF64 off = .error e := by
  simp only [fieldParamF64, bind_err, getFieldUnwrap_err, getFieldUnwrap_ok, liftE_err,
    bind_ok, liftE_ok, pure_ok]
  aesop

theorem fieldParamF32_err {p : Packet} {tag off : Nat} {e : ExtractError} :
    fieldParamF32 p tag off = .err e ↔
      ∃ f, p.payload.get_field tag = some f ∧ f.extractF32 off = .error e := by
  simp only [fieldParamF32, bind_err, getFieldUnwrap_err, getFieldUnwrap_ok, liftE_err,
    bind_ok, liftE_ok, pure_ok]
  aesop

theorem fieldParamI16_err {p : Packet} {tag off : Nat} {e : ExtractError} :
    fieldParamI16 p tag off = .err e ↔
      ∃ f, p.payload.get_field tag = some f ∧ f.extractI16 off = .error e := by
  simp only [fieldParamI16, bind_err, getFieldUnwrap_err, getFieldUnwrap_ok, liftE_err,
    bind_ok, liftE_ok, pure_ok]
  aesop

theorem fieldParamI8w_err {p : Packet} {tag off : Nat} {e : ExtractError} :
    fieldParamI8w p tag off = .err e ↔
      ∃ f, p.payload.get_field tag = some f ∧ f.extractI8 off = .error e := by
  simp only [fieldParamI8w, bind_err, getFieldUnwrap_err, getFieldUnwrap_ok, liftE_err,
    bind_ok, liftE_ok, pure_ok]
  aesop

theorem ImuData.new_ok_elim {p : Packet} {d : ImuData} (h : ImuData.new p = .ok d) :
    ∃ f04 f05 f06 f17 f07 f08 f0A f0C f12,
      p.payload.get_field 0x04 = some f04 ∧
      p.payload.get_field 0x05 = some f05 ∧
      p.payload.get_field 0x06 = some f06 ∧
      p.payload.get_field 0x17 = some f17 ∧
      p.payload.get_field 0x07 = some f07 ∧
      p.payload.get_field 0x08 = some f08 ∧
      p.payload.get_field 0x0A = some f0A ∧
      p.payload.get_field 0x0C = some f0C ∧
      p.payload.get_field 0x12 = some f12 ∧
      Vector3f.extract f04 = .ok d.accel ∧
      Vector3f.extract f05 = .ok d.gyro ∧
      Vector3f.extract f06 = .ok d.mag ∧
      f17.extractF32 0 = .ok d.baro ∧
      Vector3f.extract f07 = .ok d.delta_theta ∧
      Vector3f.extract f08 = .ok d.delta_velocity ∧
      Quaternion.extract f0A = .ok d.quat ∧
      Vector3f.extract f0C = .ok d.euler_angles ∧
      f12.extractF64 0 = .ok d.tow ∧
      f12.extractI16 8 = .ok d.week := by
  unfold ImuData.new at h
  obtain ⟨f04, h04, h⟩ := bind_ok.mp h
  obtain ⟨accel, ha1, h⟩ := bind_ok.mp h
  obtain ⟨f05, h05, h⟩ := bind_ok.mp h
  obtain ⟨gyro, ha2, h⟩ := bind_ok.mp h
  obtain ⟨f06, h06, h⟩ := bind_ok.mp h
  obtain ⟨mag, ha3, h⟩ := bind_ok.mp h
  obtain ⟨f17, h17, h⟩ := bind_ok.mp h
  obtain ⟨baro, ha4, h⟩ := bind_ok.mp h
  obtain ⟨f07, h07, h⟩ := bind_ok.mp h
  obtain ⟨dth, ha5, h⟩ := bind_ok.mp h
  obtain ⟨f08, h08, h⟩ := bind_ok.mp h
  obtain ⟨dv, ha6, h⟩ := bind_ok.mp h
  obtain ⟨f0A, h0A, h⟩ := bind_ok.mp h
  obtain ⟨qt, ha7, h⟩ := bind_ok.mp h
  obtain ⟨f0C, h0C, h⟩ := bind_ok.mp h
  obtain ⟨eu, ha8, h⟩ := bind_ok.mp h
  obtain ⟨f12, h12, h⟩ := bind_ok.mp h
  obtain ⟨tw, ha9, h⟩ := bind_ok.mp h
  obtain ⟨f12b, h12b, h⟩ := bind_ok.mp h
  obtain ⟨wk, ha10, h⟩ := bind_ok.mp h
  rw [pure_ok] at h
  cases h
  replace h12 := getFieldUnwrap_ok.mp h12
  replace h12b := getFieldUnwrap_ok.mp h12b
  rw [h12] at h12b
  injection h12b with h12e
  subst h12e
  exact ⟨f04, f05, f06, f17, f07, f08, f0A, f0C, f12,
    getFieldUnwrap_ok.mp h04, getFieldUnwrap_ok.mp h05, getFieldUnwrap_ok.mp h06,
    getFieldUnwrap_ok.mp h17, getFieldUnwrap_ok.mp h07, getFieldUnwrap_ok.mp h08,
    getFieldUnwrap_ok.mp h0A, getFieldUnwrap_ok.mp h0C, h12,
    liftE_ok.mp ha1, liftE_ok.mp ha2, liftE_ok.mp ha3, liftE_ok.mp ha4,
    liftE_ok.mp ha5, liftE_ok.mp ha6, liftE_ok.mp ha7, liftE_ok.mp ha8,
    liftE_ok.mp ha9, liftE_ok.mp ha10⟩

theorem ImuData.new_panic_elim {p : Packet} {t : Nat} (h : ImuData.new p = .panic t) :
    t ∈ imuRequiredTags ∧ p.payload.get_field t = none := by
  unfold ImuData.new at h
  rcases bind_panic.mp h with hp | ⟨f04, h04, h⟩
  · obtain ⟨hn, rfl⟩ := getFieldUnwrap_panic.mp hp
    exact ⟨by decide, hn⟩
  rcases bind_panic.mp h with hp | ⟨accel, ha1, h⟩
  · exact absurd hp liftE_panic
  rcases bind_panic.mp h with hp | ⟨f05, h05, h⟩
  · obtain ⟨hn, rfl⟩ := getFieldUnwrap_panic.mp hp
    exact ⟨by decide, hn⟩
  rcases bind_panic.mp h with hp | ⟨gyro, ha2, h⟩
  · exact absurd hp liftE_panic
  rcases bind_panic.mp h with hp | ⟨f06, h06, h⟩
  · obtain ⟨hn, rfl⟩ := getFieldUnwrap_panic.mp hp
    exact ⟨by decide, hn⟩
  rcases bind_panic.mp h with hp | ⟨mag, ha3, h⟩
  · exact absurd hp liftE_panic
  rcases bind_panic.mp h with hp | ⟨f17, h17, h⟩
  · obtain ⟨hn, rfl⟩ := getFieldUnwrap_panic.mp hp
    exact ⟨by decide, hn⟩
  rcases bind_panic.mp h with hp | ⟨baro, ha4, h⟩
  · exact absurd hp liftE_panic
  rcases bind_panic.mp h with hp | ⟨f07, h07, h⟩
  · obtain ⟨hn, rfl⟩ := getFieldUnwrap_panic.mp hp
    exact ⟨by decide, hn⟩
  rcases bind_panic.mp h with hp | ⟨dth, ha5, h⟩
  · exact absurd hp liftE_panic
  rcases bind_panic.mp h with hp | ⟨f08, h08, h⟩
  · obtain ⟨hn, rfl⟩ := getFieldUnwrap_panic.mp hp
    exact ⟨by decide, hn⟩
  rcases bind_panic.mp h with hp | ⟨dv, ha6, h⟩
  · exact absurd hp liftE_panic
  rcases bind_panic.mp h with hp | ⟨f0A, h0A, h⟩
  · obtain ⟨hn, rfl⟩ := getFieldUnwrap_panic.mp hp
    exact ⟨by decide, hn⟩
  rcases bind_panic.mp h with hp | ⟨qt, ha7, h⟩
  · exact absurd hp liftE_panic
  rcases bind_panic.mp h with hp | ⟨f0C, h0C, h⟩
  · obtain ⟨hn, rfl⟩ := getFieldUnwrap_panic.mp hp
    exact ⟨by decide, hn⟩
  rcases bind_panic.mp h with hp | ⟨eu, ha8, h⟩
  · exact absurd hp liftE_panic
  rcases bind_panic.mp h with hp | ⟨f12, h12, h⟩
  · obtain ⟨hn, rfl⟩ := getFieldUnwrap_panic.mp hp
    exact ⟨by decide, hn⟩
  rcases bind_panic.mp h with hp | ⟨tw, ha9, h⟩
  · exact absurd hp liftE_panic
  rcases bind_panic.mp h with hp | ⟨f12b, h12b, h⟩
  · obtain ⟨hn, rfl⟩ := getFieldUnwrap_panic.mp hp
    exact ⟨by decide, hn⟩
  rcases bind_panic.mp h with hp | ⟨wk, ha10, h⟩
  · exact absurd hp liftE_panic
  exact absurd h (by simp [pure_ok])

theorem ImuData.new_err_elim {p : Packet} {e : ExtractError} (h : ImuData.new p = .err e) :
    ∃ t, t ∈ imuRequiredTags ∧ ∃ f, p.payload.get_field t = some f ∧ imuTagOk p t = false := by
  unfold ImuData.new at h
  rcases bind_err.mp h with hp | ⟨f04, h04, h⟩
  · exact absurd hp getFieldUnwrap_err
  rcases bind_err.mp h with hp | ⟨accel, ha1, h⟩
  · refine ⟨0x04, by decide, f04, getFieldUnwrap_ok.mp h04, ?_⟩
    simp [imuTagOk, getFieldUnwrap_ok.mp h04, liftE_err.mp hp, exOk]
  rcases bind_err.mp h with hp | ⟨f05, h05, h⟩
  · exact absurd hp getFieldUnwrap_err
  rcases bind_err.mp h with hp | ⟨gyro, ha2, h⟩
  · refine ⟨0x05, by decide, f05, getFieldUnwrap_ok.mp h05, ?_⟩
    simp [imuTagOk, getFieldUnwrap_ok.mp h05, liftE_err.mp hp, exOk]
  rcases bind_err.mp h with hp | ⟨f06, h06, h⟩
  · exact absurd hp getFieldUnwrap_err
  rcases bind_err.mp h with hp | ⟨mag, ha3, h⟩
  · refine ⟨0x06, by decide, f06, getFieldUnwrap_ok.mp h06, ?_⟩
    simp [imuTagOk, getFieldUnwrap_ok.mp h06, liftE_err.mp hp, exOk]
  rcases bind_err.mp h with hp | ⟨f17, h17, h⟩
  · exact absurd hp getFieldUnwrap_err
  rcases bind_err.mp h with hp | ⟨baro, ha4, h⟩
  · refine ⟨0x17, by decide, f17, getFieldUnwrap_ok.mp h17, ?_⟩
    simp [imuTagOk, getFieldUnwrap_ok.mp h17, liftE_err.mp hp, exOk]
  rcases bind_err.mp h with hp | ⟨f07, h07, h⟩
  · exact absurd hp getFieldUnwrap_err
  rcases bind_err.mp h with hp | ⟨dth, ha5, h⟩
  · refine ⟨0x07, by decide, f07, getFieldUnwrap_ok.mp h07, ?_⟩
    simp [imuTagOk, getFieldUnwrap_ok.mp h07, liftE_err.mp hp, exOk]
  rcases bind_err.mp h with hp | ⟨f08, h08, h⟩
  · exact absurd hp getFieldUnwrap_err
  rcases bind_err.mp h with hp | ⟨dv, ha6, h⟩
  · refine ⟨0x08, by decide, f08, getFieldUnwrap_ok.mp h08, ?_⟩
    simp [imuTagOk, getFieldUnwrap_ok.mp h08, liftE_err.mp hp, exOk]
  rcases bind_err.mp h with hp | ⟨f0A, h0A, h⟩
  · exact absurd hp getFieldUnwrap_err
  rcases bind_err.mp h with hp | ⟨qt, ha7, h⟩
  · refine ⟨0x0A, by decide, f0A, getFieldUnwrap_ok.mp h0A, ?_⟩
    simp [imuTagOk, getFieldUnwrap_ok.mp h0A, liftE_err.mp hp, exOk]
  rcases bind_err.mp h with hp | ⟨f0C, h0C, h⟩
  · exact absurd hp getFieldUnwrap_err
  rcases bind_err.mp h with hp | ⟨eu, ha8, h⟩
  · refine ⟨0x0C, by decide, f0C, getFieldUnwrap_ok.mp h0C, ?_⟩
    simp [imuTagOk, getFieldUnwrap_ok.mp h0C, liftE_err.mp hp, exOk]
  rcases bind_err.mp h with hp | ⟨f12, h12, h⟩
  · exact absurd hp getFieldUnwrap_err
  rcases bind_err.mp h with hp | ⟨tw, ha9, h⟩
  · refine ⟨0x12, by decide, f12, getFieldUnwrap_ok.mp h12, ?_⟩
    simp [imuTagOk, getFieldUnwrap_ok.mp h12, liftE_err.mp hp, exOk]
  rcases bind_err.mp h with hp | ⟨f12b, h12b, h⟩
  · exact absurd hp getFieldUnwrap_err
  rcases bind_err.mp h with hp | ⟨wk, ha10, h⟩
  · refine ⟨0x12, by decide, f12b, getFieldUnwrap_ok.mp h12b, ?_⟩
    simp [imuTagOk, getFieldUnwrap_ok.mp h12b, liftE_err.mp hp, exOk]
  exact absurd h (by simp [pure_ok])

theorem loopBody_none : loopBody none = .ok [] := rfl

theorem loopBody_imu {p : Packet} (h : p.header.descriptor = 0x80) :
    loopBody (some p) = ImuData.new p >>= fun d => .ok [.imu (imuParams d)] := by
  simp [loopBody, h]

theorem loopBody_gnss {p : Packet} (h : p.header.descriptor = 0x81) :
    loopBody (some p) = gnssParams p >>= fun ps => .ok [.gnss ps] := by
  simp [loopBody, h]

theorem loopBody_other {p : Packet} (h1 : p.header.descriptor ≠ 0x80)
    (h2 : p.header.descriptor ≠ 0x81) : loopBody (some p) = .ok [] := by
  simp [loopBody, h1, h2]

theorem runLoop_append (ps qs : List (Option Packet)) :
    runLoop (ps ++ qs) =
      runLoop ps >>= fun ws => runLoop qs >>= fun ws' => .ok (ws ++ ws') := by
  induction ps with
  | nil =>
    simp only [List.nil_append, runLoop]
    exact (panicOr_bind_ok_right (runLoop qs)).symm
  | cons head tail ih =>
    cases hb : loopBody head with
    | ok ws =>
      cases ht : runLoop tail with
      | ok ws1 =>
        cases hq : runLoop qs with
        | ok ws2 => simp [runLoop, hb, ht, hq, ih, Bind.bind, PanicOr.bind, List.append_assoc]
        | err e => simp [runLoop, hb, ht, hq, ih, Bind.bind, PanicOr.bind]
        | panic t => simp [runLoop, hb, ht, hq, ih, Bind.bind, PanicOr.bind]
      | err e => simp [runLoop, hb, ht, ih, Bind.bind, PanicOr.bind]
      | panic t => simp [runLoop, hb, ht, ih, Bind.bind, PanicOr.bind]
    | err e => simp [runLoop, hb, Bind.bind, PanicOr.bind]
    | panic t => simp [runLoop, hb, Bind.bind, PanicOr.bind]

theorem pure_panic_iff {ε α : Type} {a : α} {t : Nat} :
    (pure a : PanicOr ε α) = .panic t ↔ False := by
  simp [pure_ok]

theorem pure_err_iff {ε α : Type} {a : α} {e : ε} :
    (pure a : PanicOr ε α) = .err e ↔ False := by
  simp [pure_ok]

theorem mapPanic_ok_iff {ε α β : Type} {f : α → PanicOr ε β} {l : List α} {bs : List β} :
    mapPanic f l = .ok bs ↔ List.Forall₂ (fun a b => f a = .ok b) l bs := by
  induction l generalizing bs with
  | nil => cases bs <;> simp [mapPanic, List.forall₂_nil_left_iff]
  | cons a as ih =>
    cases bs with
    | nil => simp [mapPanic, bind_ok, List.forall₂_nil_right_iff]
    | cons b bs =>
      simp only [mapPanic, bind_ok, ih, List.forall₂_cons, PanicOr.ok.injEq, List.cons.injEq]
      aesop

theorem mapPanic_ok_length {ε α β : Type} {f : α → PanicOr ε β} {l : List α} {bs : List β}
    (h : mapPanic f l = .ok bs) : bs.length = l.length :=
  (List.Forall₂.length_eq (mapPanic_ok_iff.mp h)).symm

theorem mapPanic_ok_get {ε α β : Type} {f : α → PanicOr ε β} {l : List α} {bs : List β}
    (h : mapPanic f l = .ok bs) (i : Nat) (hi : i < l.length) (hb : i < bs.length) :
    f (l.get ⟨i, hi⟩) = .ok (bs.get ⟨i, hb⟩) :=
  List.Forall₂.get (mapPanic_ok_iff.mp h) hi hb

theorem mapPanic_ok_mem_ex {ε α β : Type} {f : α → PanicOr ε β} {l : List α} {bs : List β}
    (h : mapPanic f l = .ok bs) {a : α} (ha : a ∈ l) : ∃ b, f a = .ok b := by
  revert h ha
  induction l generalizing bs with
  | nil =>
    intro h ha
    exact absurd ha (by simp)
  | cons x xs ih =>
    intro h ha
    simp only [mapPanic, bind_ok] at h
    obtain ⟨b, hb, bs2, hbs2, hcons⟩ := h
    rcases List.mem_cons.mp ha with rfl | hmem
    · exact ⟨b, hb⟩
    · exact ih hbs2 hmem

theorem mapPanic_panic_elim {ε α β : Type} {f : α → PanicOr ε β} {l : List α} {t : Nat}
    (h : mapPanic f l = .panic t) : ∃ a ∈ l, f a = .panic t := by
  revert h
  induction l with
  | nil =>
    intro h
    exact absurd h (by simp [mapPanic])
  | cons x xs ih =>
    intro h
    simp only [mapPanic] at h
    rcases bind_panic.mp h with hp | ⟨b, hb, h2⟩
    · exact ⟨x, by simp, hp⟩
    rcases bind_panic.mp h2 with hp | ⟨bs, hbs, h3⟩
    · obtain ⟨a, ha, hfa⟩ := ih hp
      exact ⟨a, by simp [ha], hfa⟩
    · exact absurd h3 (by simp)

theorem mapPanic_err_elim {ε α β : Type} {f : α → PanicOr ε β} {l : List α} {e : ε}
    (h : mapPanic f l = .err e) : ∃ a ∈ l, f a = .err e := by
  revert h
  induction l with
  | nil =>
    intro h
    exact absurd h (by simp [mapPanic])
  | cons x xs ih =>
    intro h
    simp only [mapPanic] at h
    rcases bind_err.mp h with hp | ⟨b, hb, h2⟩
    · exact ⟨x, by simp, hp⟩
    rcases bind_err.mp h2 with hp | ⟨bs, hbs, h3⟩
    · obtain ⟨a, ha, hfa⟩ := ih hp
      exact ⟨a, by simp [ha], hfa⟩
    · exact absurd h3 (by simp)

theorem forall2_map_eq {α β γ : Type} {R : α → β → Prop} {g : β → γ} {k : α → γ}
    (H : ∀ a b, R a b → g b = k a) :
    ∀ {l : List α} {bs : List β}, List.Forall₂ R l bs → bs.map g = l.map k := by
  intro l bs h
  induction h with
  | nil => rfl
  | cons hr _ ihh => simp [List.map, ihh, H _ _ hr]

theorem extractElem_ok_ptype {p : Packet} {e : Nat × ElemType × Nat} {pr : Param}
    (h : extractElem p e = .ok pr) : pr.ptype = e.2.1.ptype := by
  obtain ⟨tag, ty, off⟩ := e
  cases ty <;> simp only [extractElem] at h
  case ef64 =>
    obtain ⟨f, hf, v, hv, rfl⟩ := fieldParamF64_ok.mp h
    rfl
  case ef32 =>
    obtain ⟨f, hf, v, hv, rfl⟩ := fieldParamF32_ok.mp h
    rfl
  case ei16 =>
    obtain ⟨f, hf, v, hv, rfl⟩ := fieldParamI16_ok.mp h
    rfl
  case ei8w =>
    obtain ⟨f, hf, v, hv, rfl⟩ := fieldParamI8w_ok.mp h
    rfl

theorem extractElem_panic {p : Packet} {e : Nat × ElemType × Nat} {t : Nat}
    (h : extractElem p e = .panic t) : p.payload.get_field e.1 = none ∧ t = e.1 := by
  obtain ⟨tag, ty, off⟩ := e
  cases ty <;> simp only [extractElem] at h
  case ef64 => exact fieldParamF64_panic.mp h
  case ef32 => exact fieldParamF32_panic.mp h
  case ei16 => exact fieldParamI16_panic.mp h
  case ei8w => exact fieldParamI8w_panic.mp h

theorem extractElem_ok_exElemOk {p : Packet} {tag : Nat} {ty : ElemType} {off : Nat} {b : Param}
    (h : extractElem p (tag, ty, off) = .ok b) : exElemOk p tag ty off = true := by
  cases ty <;> simp only [extractElem] at h
  case ef64 =>
    obtain ⟨f, hf, v, hv, _⟩ := fieldParamF64_ok.mp h
    simp [exElemOk, hf, hv, exOk]
  case ef32 =>
    obtain ⟨f, hf, v, hv, _⟩ := fieldParamF32_ok.mp h
    simp [exElemOk, hf, hv, exOk]
  case ei16 =>
    obtain ⟨f, hf, v, hv, _⟩ := fieldParamI16_ok.mp h
    simp [exElemOk, hf, hv, exOk]
  case ei8w =>
    obtain ⟨f, hf, v, hv, _⟩ := fieldParamI8w_ok.mp h
    simp [exElemOk, hf, hv, exOk]


theorem gnssTagOk_split03 (p : Packet) :
    gnssTagOk p 0x03 =
      (exElemOk p 0x03 .ef64 0 &&
       exElemOk p 0x03 .ef64 8 &&
       exElemOk p 0x03 .ef64 16 &&
       exElemOk p 0x03 .ef64 24 &&
       exElemOk p 0x03 .ef32 32 &&
       exElemOk p 0x03 .ef32 36 &&
       exElemOk p 0x03 .ei16 40) := by
  cases hg : p.payload.get_field 0x03 <;> simp [gnssTagOk, exElemOk, hg]


theorem gnssTagOk_split04 (p : Packet) :
    gnssTagOk p 0x04 =
      (exElemOk p 0x04 .ef64 0 &&
       exElemOk p 0x04 .ef64 8 &&
       exElemOk p 0x04 .ef64 16 &&
       exElemOk p 0x04 .ef32 24 &&
       exElemOk p 0x04 .ei16 28) := by
  cases hg : p.payload.get_field 0x04 <;> simp [gnssTagOk, exElemOk, hg]


theorem gnssTagOk_split05 (p : Packet) :
    gnssTagOk p 0x05 =
      (exElemOk p 0x05 .ef32 0 &&
       exElemOk p 0x05 .ef32 4 &&
       exElemOk p 0x05 .ef32 8 &&
       exElemOk p 0x05 .ef32 12 &&
       exElemOk p 0x05 .ef32 16 &&
       exElemOk p 0x05 .ef32 20 &&
       exElemOk p 0x05 .ef32 24 &&
       exElemOk p 0x05 .ef32 28 &&
       exElemOk p 0x05 .ei16 32) := by
  cases hg : p.payload.get_field 0x05 <;> simp [gnssTagOk, exElemOk, hg]


theorem gnssTagOk_split06 (p : Packet) :
    gnssTagOk p 0x06 =
      (exElemOk p 0x06 .ef32 0 &&
       exElemOk p 0x06 .ef32 4 &&
       exElemOk p 0x06 .ef32 8 &&
       exElemOk p 0x06 .ef32 12 &&
       exElemOk p 0x06 .ei16 16) := by
  cases hg : p.payload.get_field 0x06 <;> simp [gnssTagOk, exElemOk, hg]


theorem gnssTagOk_split07 (p : Packet) :
    gnssTagOk p 0x07 =
      (exElemOk p 0x07 .ef32 0 &&
       exElemOk p 0x07 .ef32 4 &&
       exElemOk p 0x07 .ef32 8 &&
       exElemOk p 0x07 .ef32 12 &&
       exElemOk p 0x07 .ef32 16 &&
       exElemOk p 0x07 .ef32 20 &&
       exElemOk p 0x07 .ef32 24 &&
       exElemOk p 0x07 .ei16 28) := by
  cases hg : p.payload.get_field 0x07 <;> simp [gnssTagOk, exElemOk, hg]


theorem gnssTagOk_split09 (p : Packet) :
    gnssTagOk p 0x09 =
      (exElemOk p 0x09 .ef64 0 &&
       exElemOk p 0x09 .ei16 8 &&
       exElemOk p 0x09 .ei16 10) := by
  cases hg : p.payload.get_field 0x09 <;> simp [gnssTagOk, exElemOk, hg]


theorem gnssTagOk_split0B (p : Packet) :
    gnssTagOk p 0x0B =
      (exElemOk p 0x0B .ei8w 0 &&
       exElemOk p 0x0B .ei8w 1 &&
       exElemOk p 0x0B .ei16 2 &&
       exElemOk p 0x0B .ei16 4) := by
  cases hg : p.payload.get_field 0x0B <;> simp [gnssTagOk, exElemOk, hg]


theorem gnssParams_ok_decodable {p : Packet} {ps : List Param} (h : gnssParams p = .ok ps) :
    gnssFullyDecodable p = true := by
  obtain ⟨b01, hb01⟩ := mapPanic_ok_mem_ex h (show ((0x03, ElemType.ef64, 0) : Nat × ElemType × Nat) ∈ gnssElems by decide)
  have x01 := extractElem_ok_exElemOk hb01
  obtain ⟨b02, hb02⟩ := mapPanic_ok_mem_ex h (show ((0x03, ElemType.ef64, 8) : Nat × ElemType × Nat) ∈ gnssElems by decide)
  have x02 := extractElem_ok_exElemOk hb02
  obtain ⟨b03, hb03⟩ := mapPanic_ok_mem_ex h (show ((0x03, ElemType.ef64, 16) : Nat × ElemType × Nat) ∈ gnssElems by decide)
  have x03 := extractElem_ok_exElemOk hb03
  obtain ⟨b04, hb04⟩ := mapPanic_ok_mem_ex h (show ((0x03, ElemType.ef64, 24) : Nat × ElemType × Nat) ∈ gnssElems by decide)
  have x04 := extractElem_ok_exElemOk hb04
  obtain ⟨b05, hb05⟩ := mapPanic_ok_mem_ex h (show ((0x03, ElemType.ef32, 32) : Nat × ElemType × Nat) ∈ gnssElems by decide)
  have x05 := extractElem_ok_exElemOk hb05
  obtain ⟨b06, hb06⟩ := mapPanic_ok_mem_ex h (show ((0x03, ElemType.ef32, 36) : Nat × ElemType × Nat) ∈ gnssElems by decide)
  have x06 := extractElem_ok_exElemOk hb06
  obtain ⟨b07, hb07⟩ := mapPanic_ok_mem_ex h (show ((0x03, ElemType.ei16, 40) : Nat × ElemType × Nat) ∈ gnssElems by decide)
  have x07 := extractElem_ok_exElemOk hb07
  obtain ⟨b08, hb08⟩ := mapPanic_ok_mem_ex h (show ((0x04, ElemType.ef64, 0) : Nat × ElemType × Nat) ∈ gnssElems by decide)
  have x08 := extractElem_ok_exElemOk hb08
  obtain ⟨b09, hb09⟩ := mapPanic_ok_mem_ex h (show ((0x04, ElemType.ef64, 8) : Nat × ElemType × Nat) ∈ gnssElems by decide)
  have x09 := extractElem_ok_exElemOk hb09
  obtain ⟨b10, hb10⟩ := mapPanic_ok_mem_ex h (show ((0x04, ElemType.ef64, 16) : Nat × ElemType × Nat) ∈ gnssElems by decide)
  have x10 := extractElem_ok_exElemOk hb10
  obtain ⟨b11, hb11⟩ := mapPanic_ok_mem_ex h (show ((0x04, ElemType.ef32, 24) : Nat × ElemType × Nat) ∈ gnssElems by decide)
  have x11 := extractElem_ok_exElemOk hb11
  obtain ⟨b12, hb12⟩ := mapPanic_ok_mem_ex h (show ((0x04, ElemType.ei16, 28) : Nat × ElemType × Nat) ∈ gnssElems by decide)
  have x12 := extractElem_ok_exElemOk hb12
  obtain ⟨b13, hb13⟩ := mapPanic_ok_mem_ex h (show ((0x05, ElemType.ef32, 0) : Nat × ElemType × Nat) ∈ gnssElems by decide)
  have x13 := extractElem_ok_exElemOk hb13
  obtain ⟨b14, hb14⟩ := mapPanic_ok_mem_ex h (show ((0x05, ElemType.ef32, 4) : Nat × ElemType × Nat) ∈ gnssElems by decide)
  have x14 := extractElem_ok_exElemOk hb14
  obtain ⟨b15, hb15⟩ := mapPanic_ok_mem_ex h (show ((0x05, ElemType.ef32, 8) : Nat × ElemType × Nat) ∈ gnssElems by decide)
  have x15 := extractElem_ok_exElemOk hb15
  obtain ⟨b16, hb16⟩ := mapPanic_ok_mem_ex h (show ((0x05, ElemType.ef32, 12) : Nat × ElemType × Nat) ∈ gnssElems by decide)
  have x16 := extractElem_ok_exElemOk hb16
  obtain ⟨b17, hb17⟩ := mapPanic_ok_mem_ex h (show ((0x05, ElemType.ef32, 16) : Nat × ElemType × Nat) ∈ gnssElems by decide)
  have x17 := extractElem_ok_exElemOk hb17
  obtain ⟨b18, hb18⟩ := mapPanic_ok_mem_ex h (show ((0x05, ElemType.ef32, 20) : Nat × ElemType × Nat) ∈ gnssElems by decide)
  have x18 := extractElem_ok_exElemOk hb18
  obtain ⟨b19, hb19⟩ := mapPanic_ok_mem_ex h (show ((0x05, ElemType.ef32, 24) : Nat × ElemType × Nat) ∈ gnssElems by decide)
  have x19 := extractElem_ok_exElemOk hb19
  obtain ⟨b20, hb20⟩ := mapPanic_ok_mem_ex h (show ((0x05, ElemType.ef32, 28) : Nat × ElemType × Nat) ∈ gnssElems by decide)
  have x20 := extractElem_ok_exElemOk hb20
  obtain ⟨b21, hb21⟩ := mapPanic_ok_mem_ex h (show ((0x05, ElemType.ei16, 32) : Nat × ElemType × Nat) ∈ gnssElems by decide)
  have x21 := extractElem_ok_exElemOk hb21
  obtain ⟨b22, hb22⟩ := mapPanic_ok_mem_ex h (show ((0x06, ElemType.ef32, 0) : Nat × ElemType × Nat) ∈ gnssElems by decide)
  have x22 := extractElem_ok_exElemOk hb22
  obtain ⟨b23, hb23⟩ := mapPanic_ok_mem_ex h (show ((0x06, ElemType.ef32, 4) : Nat × ElemType × Nat) ∈ gnssElems by decide)
  have x23 := extractElem_ok_exElemOk hb23
  obtain ⟨b24, hb24⟩ := mapPanic_ok_mem_ex h (show ((0x06, ElemType.ef32, 8) : Nat × ElemType × Nat) ∈ gnssElems by decide)
  have x24 := extractElem_ok_exElemOk hb24
  obtain ⟨b25, hb25⟩ := mapPanic_ok_mem_ex h (show ((0x06, ElemType.ef32, 12) : Nat × ElemType × Nat) ∈ gnssElems by decide)
  have x25 := extractElem_ok_exElemOk hb25
  obtain ⟨b26, hb26⟩ := mapPanic_ok_mem_ex h (show ((0x06, ElemType.ei16, 16) : Nat × ElemType × Nat) ∈ gnssElems by decide)
  have x26 := extractElem_ok_exElemOk hb26
  obtain ⟨b27, hb27⟩ := mapPanic_ok_mem_ex h (show ((0x07, ElemType.ef32, 0) : Nat × ElemType × Nat) ∈ gnssElems by decide)
  have x27 := extractElem_ok_exElemOk hb27
  obtain ⟨b28, hb28⟩ := mapPanic_ok_mem_ex h (show ((0x07, ElemType.ef32, 4) : Nat × ElemType × Nat) ∈ gnssElems by decide)
  have x28 := extractElem_ok_exElemOk hb28
  obtain ⟨b29, hb29⟩ := mapPanic_ok_mem_ex h (show ((0x07, ElemType.ef32, 8) : Nat × ElemType × Nat) ∈ gnssElems by decide)
  have x29 := extractElem_ok_exElemOk hb29
  obtain ⟨b30, hb30⟩ := mapPanic_ok_mem_ex h (show ((0x07, ElemType.ef32, 12) : Nat × ElemType × Nat) ∈ gnssElems by decide)
  have x30 := extractElem_ok_exElemOk hb30
  obtain ⟨b31, hb31⟩ := mapPanic_ok_mem_ex h (show ((0x07, ElemType.ef32, 16) : Nat × ElemType × Nat) ∈ gnssElems by decide)
  have x31 := extractElem_ok_exElemOk hb31
  obtain ⟨b32, hb32⟩ := mapPanic_ok_mem_ex h (show ((0x07, ElemType.ef32, 20) : Nat × ElemType × Nat) ∈ gnssElems by decide)
  have x32 := extractElem_ok_exElemOk hb32
  obtain ⟨b33, hb33⟩ := mapPanic_ok_mem_ex h (show ((0x07, ElemType.ef32, 24) : Nat × ElemType × Nat) ∈ gnssElems by decide)
  have x33 := extractElem_ok_exElemOk hb33
  obtain ⟨b34, hb34⟩ := mapPanic_ok_mem_ex h (show ((0x07, ElemType.ei16, 28) : Nat × ElemType × Nat) ∈ gnssElems by decide)
  have x34 := extractElem_ok_exElemOk hb34
  obtain ⟨b35, hb35⟩ := mapPanic_ok_mem_ex h (show ((0x09, ElemType.ef64, 0) : Nat × ElemType × Nat) ∈ gnssElems by decide)
  have x35 := extractElem_ok_exElemOk hb35
  obtain ⟨b36, hb36⟩ := mapPanic_ok_mem_ex h (show ((0x09, ElemType.ei16, 8) : Nat × ElemType × Nat) ∈ gnssElems by decide)
  have x36 := extractElem_ok_exElemOk hb36
  obtain ⟨b37, hb37⟩ := mapPanic_ok_mem_ex h (show ((0x09, ElemType.ei16, 10) : Nat × ElemType × Nat) ∈ gnssElems by decide)
  have x37 := extractElem_ok_exElemOk hb37
  obtain ⟨b38, hb38⟩ := mapPanic_ok_mem_ex h (show ((0x0B, ElemType.ei8w, 0) : Nat × ElemType × Nat) ∈ gnssElems by decide)
  have x38 := extractElem_ok_exElemOk hb38
  obtain ⟨b39, hb39⟩ := mapPanic_ok_mem_ex h (show ((0x0B, ElemType.ei8w, 1) : Nat × ElemType × Nat) ∈ gnssElems by decide)
  have x39 := extractElem_ok_exElemOk hb39
  obtain ⟨b40, hb40⟩ := mapPanic_ok_mem_ex h (show ((0x0B, ElemType.ei16, 2) : Nat × ElemType × Nat) ∈ gnssElems by decide)
  have x40 := extractElem_ok_exElemOk hb40
  obtain ⟨b41, hb41⟩ := mapPanic_ok_mem_ex h (show ((0x0B, ElemType.ei16, 4) : Nat × ElemType × Nat) ∈ gnssElems by decide)
  have x41 := extractElem_ok_exElemOk hb41
  have t03 : gnssTagOk p 0x03 = true := by
    rw [gnssTagOk_split03]
    simp [x01, x02, x03, x04, x05, x06, x07]
  have t04 : gnssTagOk p 0x04 = true := by
    rw [gnssTagOk_split04]
    simp [x08, x09, x10, x11, x12]
  have t05 : gnssTagOk p 0x05 = true := by
    rw [gnssTagOk_split05]
    simp [x13, x14, x15, x16, x17, x18, x19, x20, x21]
  have t06 : gnssTagOk p 0x06 = true := by
    rw [gnssTagOk_split06]
    simp [x22, x23, x24, x25, x26]
  have t07 : gnssTagOk p 0x07 = true := by
    rw [gnssTagOk_split07]
    simp [x27, x28, x29, x30, x31, x32, x33, x34]
  have t09 : gnssTagOk p 0x09 = true := by
    rw [gnssTagOk_split09]
    simp [x35, x36, x37]
  have t0B : gnssTagOk p 0x0B = true := by
    rw [gnssTagOk_split0B]
    simp [x38, x39, x40, x41]
  simp [gnssFullyDecodable, gnssRequiredTags, t03, t04, t05, t06, t07, t09, t0B]


theorem gnssParams_panic_elim {p : Packet} {t : Nat} (h : gnssParams p = .panic t) :
    t ∈ gnssRequiredTags ∧ p.payload.get_field t = none := by
  obtain ⟨e, he, hfe⟩ := mapPanic_panic_elim h
  obtain ⟨hn, rfl⟩ := extractElem_panic hfe
  have hmem : ∀ e ∈ gnssElems, e.1 ∈ gnssRequiredTags := by decide
  exact ⟨hmem e he, hn⟩

set_option maxHeartbeats 1600000 in
theorem gnssParams_err_elim {p : Packet} {e : ExtractError} (h : gnssParams p = .err e) :
    ∃ t, t ∈ gnssRequiredTags ∧ ∃ f, p.payload.get_field t = some f ∧ gnssTagOk p t = false := by
  obtain ⟨el, hel, hfe⟩ := mapPanic_err_elim h
  fin_cases hel <;>
    first
    | (obtain ⟨f, hf, herr⟩ := fieldParamF64_err.mp hfe
       exact ⟨_, by decide, f, hf, by simp [gnssTagOk, hf, herr, exOk]⟩)
    | (obtain ⟨f, hf, herr⟩ := fieldParamF32_err.mp hfe
       exact ⟨_, by decide, f, hf, by simp [gnssTagOk, hf, herr, exOk]⟩)
    | (obtain ⟨f, hf, herr⟩ := fieldParamI16_err.mp hfe
       exact ⟨_, by decide, f, hf, by simp [gnssTagOk, hf, herr, exOk]⟩)
    | (obtain ⟨f, hf, herr⟩ := fieldParamI8w_err.mp hfe
       exact ⟨_, by decide, f, hf, by simp [gnssTagOk, hf, herr, exOk]⟩)


theorem ImuData.new_ok_decodable {p : Packet} {d : ImuData} (h : ImuData.new p = .ok d) :
    imuFullyDecodable p = true := by
  obtain ⟨f04, f05, f06, f17, f07, f08, f0A, f0C, f12, h04, h05, h06, h17, h07, h08,
    h0A, h0C, h12, e1, e2, e3, e4, e5, e6, e7, e8, e9, e10⟩ := ImuData.new_ok_elim h
  have t04 : imuTagOk p 0x04 = true := by simp [imuTagOk, h04, e1, exOk]
  have t05 : imuTagOk p 0x05 = true := by simp [imuTagOk, h05, e2, exOk]
  have t06 : imuTagOk p 0x06 = true := by simp [imuTagOk, h06, e3, exOk]
  have t17 : imuTagOk p 0x17 = true := by simp [imuTagOk, h17, e4, exOk]
  have t07 : imuTagOk p 0x07 = true := by simp [imuTagOk, h07, e5, exOk]
  have t08 : imuTagOk p 0x08 = true := by simp [imuTagOk, h08, e6, exOk]
  have t0A : imuTagOk p 0x0A = true := by simp [imuTagOk, h0A, e7, exOk]
  have t0C : imuTagOk p 0x0C = true := by simp [imuTagOk, h0C, e8, exOk]
  have t12 : imuTagOk p 0x12 = true := by simp [imuTagOk, h12, e9, e10, exOk]
  simp [imuFullyDecodable, imuRequiredTags, t04, t05, t06, t17, t07, t08, t0A, t0C, t12]


theorem except_pure_ok {ε α : Type} (a : α) : (pure a : Except ε α) = .ok a := rfl

theorem except_bind_ok {ε α β : Type} {x : Except ε α} {g : α → Except ε β} {b : β} :
    x >>= g = .ok b ↔ ∃ a, x = .ok a ∧ g a = .ok b := by
  cases x <;> simp [Bind.bind, Except.bind]

theorem except_bind_err {ε α β : Type} {x : Except ε α} {g : α → Except ε β} {e : ε} :
    x >>= g = .error e ↔ x = .error e ∨ ∃ a, x = .ok a ∧ g a = .error e := by
  cases x <;> simp [Bind.bind, Except.bind]

theorem runLoop_ok_elim {ps : List (Option Packet)} {ws : List Write}
    (h : runLoop ps = .ok ws) : ∀ o ∈ ps, ∃ ws2, loopBody o = .ok ws2 := by
  revert h
  induction ps generalizing ws with
  | nil =>
    intro h o ho
    exact absurd ho (by simp)
  | cons x xs ih =>
    intro h o ho
    simp only [runLoop, bind_ok] at h
    obtain ⟨w1, hw1, w2, hw2, _⟩ := h
    rcases List.mem_cons.mp ho with rfl | hm
    · exact ⟨w1, hw1⟩
    · exact ih hw2 o hm

theorem toSigned8_bounds (n : Nat) : -128 ≤ toSigned 8 n ∧ toSigned 8 n < 128 := by
  unfold toSigned
  norm_num
  constructor <;> split <;> omega

theorem extractBits_ok_bound {f : Field} {off size v : Nat}
    (h : f.extractBits off size = .ok v) : off + size ≤ f.data.length := by
  by_cases hb : off + size ≤ f.data.length
  · exact hb
  · simp [Field.extractBits, hb] at h

theorem extractI16_ok_bound {f : Field} {off : Nat} {v : Int}
    (h : f.extractI16 off = .ok v) : off + 2 ≤ f.data.length := by
  cases hx : f.extractBits off 2 with
  | ok w => exact extractBits_ok_bound hx
  | error e => simp [Field.extractI16, hx, Except.map] at h

theorem toSigned_mod (w n : Nat) : toSigned w (n % 2 ^ w) = toSigned w n := by
  simp [toSigned, Nat.mod_mod_of_dvd]

theorem extractI8_getD {f : Field} {off : Nat} {v : Int} (hv : f.extractI8 off = .ok v) :
    v = toSigned 8 (f.data.getD off 0) := by
  by_cases hlen : off + 1 ≤ f.data.length
  · have hofflt : off < f.data.length := by omega
    simp only [Field.extractI8, Field.extractBits, if_pos hlen, Except.map] at hv
    injection hv with hv
    subst hv
    rw [List.drop_eq_getElem_cons hofflt]
    rw [List.getD_eq_getElem f.data 0 hofflt]
    have hle : leDecode [f.data[off]] = f.data[off] % 2 ^ 8 := by
      simp [leDecode]
    simp only [List.take_succ_cons, List.take_zero, hle]
    exact toSigned_mod 8 _
  · simp [Field.extractI8, Field.extractBits, if_neg hlen, Except.map] at hv

theorem leEncode_length (size n : Nat) : (leEncode size n).length = size := by
  induction size generalizing n with
  | zero => rfl
  | succ s ih => simp [leEncode, ih]

theorem leDecode_leEncode (size n : Nat) : leDecode (leEncode size n) = n % 2 ^ (8 * size) := by
  induction size generalizing n with
  | zero => simp [leEncode, leDecode, Nat.mod_one]
  | succ s ih =>
    have h2 : (2 : Nat) ^ (8 * (s + 1)) = 256 * 2 ^ (8 * s) := by
      rw [show 8 * (s + 1) = 8 + 8 * s by ring, pow_add]
      norm_num
    rw [h2]
    simp only [leEncode, leDecode, ih]
    rw [Nat.mod_mul]
    congr 1
    omega

theorem gnssParams_get0B {p : Packet} {ps : List Param} (h : gnssParams p = .ok ps) :
    ∃ f, p.payload.get_field 0x0B = some f ∧
      ∃ v38 v39 v40 v41 : Int,
        f.extractI8 0 = .ok v38 ∧ f.extractI8 1 = .ok v39 ∧
        f.extractI16 2 = .ok v40 ∧ f.extractI16 4 = .ok v41 ∧
        ps.get? 37 = some (.i16 v38) ∧ ps.get? 38 = some (.i16 v39) ∧
        ps.get? 39 = some (.i16 v40) ∧ ps.get? 40 = some (.i16 v41) := by
  have hlen : ps.length = 41 := (mapPanic_ok_length h).trans rfl
  have hb37 : 37 < ps.length := by omega
  have hb38 : 38 < ps.length := by omega
  have hb39 : 39 < ps.length := by omega
  have hb40 : 40 < ps.length := by omega
  have e37 : extractElem p (0x0B, ElemType.ei8w, 0) = .ok (ps.get ⟨37, hb37⟩) :=
    mapPanic_ok_get h 37 (by decide) hb37
  have e38 : extractElem p (0x0B, ElemType.ei8w, 1) = .ok (ps.get ⟨38, hb38⟩) :=
    mapPanic_ok_get h 38 (by decide) hb38
  have e39 : extractElem p (0x0B, ElemType.ei16, 2) = .ok (ps.get ⟨39, hb39⟩) :=
    mapPanic_ok_get h 39 (by decide) hb39
  have e40 : extractElem p (0x0B, ElemType.ei16, 4) = .ok (ps.get ⟨40, hb40⟩) :=
    mapPanic_ok_get h 40 (by decide) hb40
  obtain ⟨f, hf, v38, hv38, hp37⟩ := fieldParamI8w_ok.mp e37
  obtain ⟨f2, hf2, v39, hv39, hp38⟩ := fieldParamI8w_ok.mp e38
  obtain ⟨f3, hf3, v40, hv40, hp39⟩ := fieldParamI16_ok.mp e39
  obtain ⟨f4, hf4, v41, hv41, hp40⟩ := fieldParamI16_ok.mp e40
  cases hf.symm.trans hf2
  cases hf.symm.trans hf3
  cases hf.symm.trans hf4
  refine ⟨f, hf, v38, v39, v40, v41, hv38, hv39, hv40, hv41, ?_, ?_, ?_, ?_⟩
  · rw [List.get?_eq_get hb37, hp37]
  · rw [List.get?_eq_get hb38, hp38]
  · rw [List.get?_eq_get hb39, hp39]
  · rw [List.get?_eq_get hb40, hp40]

theorem gnssParams_ok_types {p : Packet} {ps : List Param} (h : gnssParams p = .ok ps) :
    ps.map Param.ptype = gnssColumnTypes := by
  have hm := forall2_map_eq (fun a b hr => extractElem_ok_ptype hr) (mapPanic_ok_iff.mp h)
  exact hm.trans (by decide)



/-- C1: record assembly is all-or-nothing.  If any required tag is missing
from the payload or any sub-field extraction fails (`imuFullyDecodable`
resp. `gnssFullyDecodable` is false), the assembler returns no record —
partial or otherwise — and the ingestion-loop pass for that packet issues
no storage write. -/
theorem assembly_all_or_nothing (p : Packet) :
    (imuFullyDecodable p = false →
      (∀ d, ImuData.new p ≠ .ok d) ∧
      (p.header.descriptor = 0x80 → (loopBody (some p)).writes = [])) ∧
    (gnssFullyDecodable p = false →
      (∀ ps, gnssParams p ≠ .ok ps) ∧
      (p.header.descriptor = 0x81 → (loopBody (some p)).writes = [])) := by
  constructor
  · intro hfd
    have hno : ∀ d, ImuData.new p ≠ .ok d := by
      intro d hok
      rw [ImuData.new_ok_decodable hok] at hfd
      cases hfd
    refine ⟨hno, fun hd => ?_⟩
    rw [loopBody_imu hd]
    cases hN : ImuData.new p with
    | ok d => exact absurd hN (hno d)
    | err e => rfl
    | panic t => rfl
  · intro hfd
    have hno : ∀ ps, gnssParams p ≠ .ok ps := by
      intro ps hok
      rw [gnssParams_ok_decodable hok] at hfd
      cases hfd
    refine ⟨hno, fun hd => ?_⟩
    rw [loopBody_gnss hd]
    cases hN : gnssParams p with
    | ok ps => exact absurd hN (hno ps)
    | err e => rfl
    | panic t => rfl

/-- Witness for C1: on the concrete IMU packet with an empty payload the
pass issues no write. -/
theorem assembly_all_or_nothing_witness :
    imuFullyDecodable pImuMissing = false ∧ (loopBody (some pImuMissing)).writes = [] := by
  refine ⟨by decide, ?_⟩
  exact ((assembly_all_or_nothing pImuMissing).1 (by decide)).2 (by decide)

/-- C2 counterexample: on a packet with an empty payload the assembler's
outcome is a process-aborting panic at the 0x04 lookup — no `MissingField`
error value is returned (the program has no such error) — and on a packet
whose 0x04 field is present but 4 bytes long, the outcome is the bare
extraction error with no tag attached (no `FieldDecodeError` wrapper
exists either). -/
theorem assembly_failure_modes_counterexample :
    ImuData.new pImuMissing = .panic 0x04 ∧ ImuData.new pImuShort = .err .outOfBounds := by
  exact ⟨by decide, by decide⟩

/-- C2 amended: a required tag absent from the payload makes assembly abort
with a panic identifying an absent required tag (no error value is
returned), and a decode failure on a present tag makes assembly fail with
the underlying extraction error propagated unwrapped; these are the only
failure modes, for the IMU and the GNSS assembler alike. -/
theorem assembly_failure_modes (p : Packet) :
    (∀ t, ImuData.new p = .panic t → t ∈ imuRequiredTags ∧ p.payload.get_field t = none) ∧
    (∀ e, ImuData.new p = .err e →
      ∃ t, t ∈ imuRequiredTags ∧ ∃ f, p.payload.get_field t = some f ∧ imuTagOk p t = false) ∧
    (∀ t, gnssParams p = .panic t → t ∈ gnssRequiredTags ∧ p.payload.get_field t = none) ∧
    (∀ e, gnssParams p = .err e →
      ∃ t, t ∈ gnssRequiredTags ∧ ∃ f, p.payload.get_field t = some f ∧ gnssTagOk p t = false) :=
  ⟨fun _ h => ImuData.new_panic_elim h, fun _ h => ImuData.new_err_elim h,
    fun _ h => gnssParams_panic_elim h, fun _ h => gnssParams_err_elim h⟩

/-- Witness for C2 (amended): the panic on the empty-payload packet indeed
names an absent required tag. -/
theorem assembly_failure_modes_witness :
    0x04 ∈ imuRequiredTags ∧ pImuMissing.payload.get_field 0x04 = none :=
  (assembly_failure_modes pImuMissing).1 0x04 (by decide)

/-- C3: on every successfully assembled IMU record the persistence mapping
emits exactly 25 parameters, grouped by the VALUES clause into three
3-component rows, one scalar, two 3-component rows, one 4-component row,
one 3-component row, and the tow and week scalars, with parameter types in
the declared `imu_data` column order; and the worked example holds: an
acceleration field with bytes [0,0,128,63, 0,0,0,64, 0,0,64,64] yields
x = 1.0, y = 2.0, z = 3.0. -/
theorem imu_row_params (p : Packet) (d : ImuData) (h : ImuData.new p = .ok d) :
    (imuParams d).length = 25 ∧
    imuRowShape = [3, 3, 3, 1, 3, 3, 4, 3, 1, 1] ∧
    imuRowShape.sum = 25 ∧
    (imuParams d).map Param.ptype = imuColumnTypes ∧
    (∀ f, p.payload.get_field 0x04 = some f →
      f.data = [0, 0, 128, 63, 0, 0, 0, 64, 0, 0, 64, 64] →
      d.accel = ⟨⟨0x3F800000⟩, ⟨0x40000000⟩, ⟨0x40400000⟩⟩ ∧
      f32ToRat d.accel.x.bits = some 1 ∧
      f32ToRat d.accel.y.bits = some 2 ∧
      f32ToRat d.accel.z.bits = some 3 ∧
      (imuParams d).take 3 = [.f32 ⟨0x3F800000⟩, .f32 ⟨0x40000000⟩, .f32 ⟨0x40400000⟩]) := by
  obtain ⟨f04, f05, f06, f17, f07, f08, f0A, f0C, f12, h04, h05, h06, h17, h07, h08,
    h0A, h0C, h12, e1, e2, e3, e4, e5, e6, e7, e8, e9, e10⟩ := ImuData.new_ok_elim h
  refine ⟨rfl, rfl, rfl, rfl, ?_⟩
  intro f hf hbytes
  rw [h04] at hf
  injection hf with hf
  subst hf
  have hfield : f04 = Field.mk [0, 0, 128, 63, 0, 0, 0, 64, 0, 0, 64, 64] := by
    cases f04
    simpa using hbytes
  rw [hfield] at e1
  have hcalc : Vector3f.extract (Field.mk [0, 0, 128, 63, 0, 0, 0, 64, 0, 0, 64, 64]) =
      .ok ⟨⟨0x3F800000⟩, ⟨0x40000000⟩, ⟨0x40400000⟩⟩ := by decide
  have hacc : d.accel = ⟨⟨0x3F800000⟩, ⟨0x40000000⟩, ⟨0x40400000⟩⟩ := by
    injection e1.symm.trans hcalc with hacc
  refine ⟨hacc, ?_, ?_, ?_, ?_⟩
  · rw [hacc]
    norm_num [f32ToRat]
  · rw [hacc]
    norm_num [f32ToRat]
  · rw [hacc]
    norm_num [f32ToRat]
  · simp [imuParams, hacc]

/-- Witness for C3 at the concrete fully-populated IMU packet. -/
theorem imu_row_params_witness :
    (imuParams dImuFull).length = 25 ∧ f32ToRat dImuFull.accel.x.bits = some 1 := by
  have h := imu_row_params pImuFull dImuFull (by decide)
  have h5 := h.2.2.2.2 (Field.mk [0, 0, 128, 63, 0, 0, 0, 64, 0, 0, 64, 64]) (by decide) rfl
  exact ⟨h.1, h5.2.1⟩

/-- C4: on every successfully extracted GNSS packet the branch emits
exactly 41 parameters whose types follow the documented `gnss_data`
column order, and the first two fix-quality sub-fields are read as 8-bit
signed integers and stored as 16-bit parameters with the value — hence
the sign — preserved: the stored value is the two's-complement reading of
the byte, always in [-128, 128) (so byte 255 is stored as -1, not 255). -/
theorem gnss_row_params (p : Packet) (ps : List Param) (h : gnssParams p = .ok ps) :
    ps.length = 41 ∧
    ps.map Param.ptype = gnssColumnTypes ∧
    ∃ f, p.payload.get_field 0x0B = some f ∧
      ps.get? 37 = some (.i16 (toSigned 8 (f.data.getD 0 0))) ∧
      ps.get? 38 = some (.i16 (toSigned 8 (f.data.getD 1 0))) ∧
      -128 ≤ toSigned 8 (f.data.getD 0 0) ∧ toSigned 8 (f.data.getD 0 0) < 128 ∧
      -128 ≤ toSigned 8 (f.data.getD 1 0) ∧ toSigned 8 (f.data.getD 1 0) < 128 := by
  obtain ⟨f, hf, v38, v39, v40, v41, hv38, hv39, hv40, hv41, hp37, hp38, hp39, hp40⟩ :=
    gnssParams_get0B h
  refine ⟨(mapPanic_ok_length h).trans rfl, gnssParams_ok_types h, f, hf, ?_, ?_,
    (toSigned8_bounds _).1, (toSigned8_bounds _).2,
    (toSigned8_bounds _).1, (toSigned8_bounds _).2⟩
  · rw [hp37, extractI8_getD hv38]
  · rw [hp38, extractI8_getD hv39]

/-- Witness for C4: on the concrete GNSS packet whose fix-type byte is 255
the 38th parameter is the int16 value -1, not 255. -/
theorem gnss_row_params_witness :
    gnssFullPs.length = 41 ∧
    gnssFullPs.get? 37 = some (.i16 (-1)) ∧ gnssFullPs.get? 38 = some (.i16 7) := by
  have h := gnss_row_params pGnssFull gnssFullPs (by decide)
  obtain ⟨hlen, _, f, hf, h37, h38, _⟩ := h
  have hcf : pGnssFull.payload.get_field 0x0B = some (Field.mk [255, 7, 0, 0, 0, 0]) := by
    decide
  rw [hcf] at hf
  injection hf with hf
  subst hf
  refine ⟨hlen, ?_, ?_⟩
  · rw [h37]
    decide
  · rw [h38]
    decide

/-- C5: `Vector3f::extract` is exactly three chained 32-bit float
extractions at relative offsets 0, 4, 8, failing with the first
sub-extraction's error; `Quaternion::extract` likewise chains four
extractions at offsets 0, 4, 8, 12. -/
theorem composite_decoders (f : Field) :
    (∀ v : Vector3f, Vector3f.extract f = .ok v ↔
      f.extractF32 0 = .ok v.x ∧ f.extractF32 4 = .ok v.y ∧ f.extractF32 8 = .ok v.z) ∧
    (∀ e, Vector3f.extract f = .error e ↔
      f.extractF32 0 = .error e ∨
      ∃ x, f.extractF32 0 = .ok x ∧ (f.extractF32 4 = .error e ∨
        ∃ y, f.extractF32 4 = .ok y ∧ f.extractF32 8 = .error e)) ∧
    (∀ q : Quaternion, Quaternion.extract f = .ok q ↔
      f.extractF32 0 = .ok q.q0 ∧ f.extractF32 4 = .ok q.q1 ∧
      f.extractF32 8 = .ok q.q2 ∧ f.extractF32 12 = .ok q.q3) ∧
    (∀ e, Quaternion.extract f = .error e ↔
      f.extractF32 0 = .error e ∨
      ∃ a, f.extractF32 0 = .ok a ∧ (f.extractF32 4 = .error e ∨
        ∃ b, f.extractF32 4 = .ok b ∧ (f.extractF32 8 = .error e ∨
          ∃ c, f.extractF32 8 = .ok c ∧ f.extractF32 12 = .error e))) := by
  refine ⟨?_, ?_, ?_, ?_⟩
  · intro v
    obtain ⟨x0, y0, z0⟩ := v
    cases h0 : f.extractF32 0 <;> cases h4 : f.extractF32 4 <;> cases h8 : f.extractF32 8 <;>
      simp [Vector3f.extract, h0, h4, h8, Bind.bind, Except.bind, except_pure_ok]
  · intro e
    cases h0 : f.extractF32 0 <;> cases h4 : f.extractF32 4 <;> cases h8 : f.extractF32 8 <;>
      simp [Vector3f.extract, h0, h4, h8, Bind.bind, Except.bind, except_pure_ok]
  · intro q
    obtain ⟨a0, b0, c0, d0⟩ := q
    cases h0 : f.extractF32 0 <;> cases h4 : f.extractF32 4 <;> cases h8 : f.extractF32 8 <;>
      cases h12 : f.extractF32 12 <;>
      simp [Quaternion.extract, h0, h4, h8, h12, Bind.bind, Except.bind, except_pure_ok]
  · intro e
    cases h0 : f.extractF32 0 <;> cases h4 : f.extractF32 4 <;> cases h8 : f.extractF32 8 <;>
      cases h12 : f.extractF32 12 <;>
      simp [Quaternion.extract, h0, h4, h8, h12, Bind.bind, Except.bind, except_pure_ok]

/-- Witness for C5 on the worked-example bytes. -/
theorem composite_decoders_witness :
    Field.extractF32 (Field.mk [0, 0, 128, 63, 0, 0, 0, 64, 0, 0, 64, 64]) 0 = .ok ⟨0x3F800000⟩ ∧
    Field.extractF32 (Field.mk [0, 0, 128, 63, 0, 0, 0, 64, 0, 0, 64, 64]) 4 = .ok ⟨0x40000000⟩ ∧
    Field.extractF32 (Field.mk [0, 0, 128, 63, 0, 0, 0, 64, 0, 0, 64, 64]) 8 = .ok ⟨0x40400000⟩ :=
  ((composite_decoders (Field.mk [0, 0, 128, 63, 0, 0, 0, 64, 0, 0, 64, 64])).1
    ⟨⟨0x3F800000⟩, ⟨0x40000000⟩, ⟨0x40400000⟩⟩).mp (by decide)

/-- C6: in IMU assembly, time-of-week and week number are both extracted
from the single field tagged 0x12, at relative offsets 0 and 8; there is
no separate week tag (0x12 appears exactly once in the required-tag
list). -/
theorem tow_week_shared_field (p : Packet) (d : ImuData) (h : ImuData.new p = .ok d) :
    imuRequiredTags.count 0x12 = 1 ∧
    ∃ f, p.payload.get_field 0x12 = some f ∧
      f.extractF64 0 = .ok d.tow ∧ f.extractI16 8 = .ok d.week := by
  obtain ⟨f04, f05, f06, f17, f07, f08, f0A, f0C, f12, h04, h05, h06, h17, h07, h08,
    h0A, h0C, h12, e1, e2, e3, e4, e5, e6, e7, e8, e9, e10⟩ := ImuData.new_ok_elim h
  exact ⟨by decide, f12, h12, e9, e10⟩

/-- Witness for C6 on the concrete fully-populated IMU packet. -/
theorem tow_week_shared_field_witness :
    imuRequiredTags.count 0x12 = 1 ∧
    (Field.mk (List.replicate 10 0)).extractF64 0 = .ok dImuFull.tow ∧
    (Field.mk (List.replicate 10 0)).extractI16 8 = .ok dImuFull.week := by
  obtain ⟨hc, f, hf, h1, h2⟩ := tow_week_shared_field pImuFull dImuFull (by decide)
  have hcf : pImuFull.payload.get_field 0x12 = some (Field.mk (List.replicate 10 0)) := by
    decide
  rw [hcf] at hf
  injection hf with hf
  subst hf
  exact ⟨hc, h1, h2⟩

/-- C7: a packet whose descriptor is neither 0x80 nor 0x81 invokes no
assembler and issues no write and raises no failure — the pass returns
`ok []`, independently of the payload — and the loop proceeds to the next
packet. -/
theorem unknown_descriptor_ignored (p : Packet) (h1 : p.header.descriptor ≠ 0x80)
    (h2 : p.header.descriptor ≠ 0x81) :
    loopBody (some p) = .ok [] ∧
    (∀ pl : Payload, loopBody (some ⟨p.header, pl⟩) = .ok []) ∧
    (∀ rest : List (Option Packet), runLoop (some p :: rest) = runLoop rest) := by
  have hlb := loopBody_other h1 h2
  refine ⟨hlb, fun pl => loopBody_other h1 h2, fun rest => ?_⟩
  show loopBody (some p) >>= (fun ws => runLoop rest >>= fun ws2 => .ok (ws ++ ws2)) =
    runLoop rest
  rw [hlb]
  show (runLoop rest >>= fun ws2 => .ok ([] ++ ws2)) = runLoop rest
  simpa using panicOr_bind_ok_right (runLoop rest)

/-- Witness for C7 at a concrete packet with descriptor 0x42. -/
theorem unknown_descriptor_ignored_witness :
    loopBody (some pUnknown) = .ok [] ∧ runLoop [some pUnknown] = runLoop [] := by
  have h := unknown_descriptor_ignored pUnknown (by decide) (by decide)
  exact ⟨h.1, h.2.2 []⟩

/-- C8: the ingestion loop has no terminal state: running it over a longer
input always means processing the whole prefix first (composition law), a
successful run means every single pass succeeded, and the first error or
panic is fatal — it propagates out and the rest of the input is never
processed, with no skip-and-continue recovery. -/
theorem loop_fatal_composition (ps qs : List (Option Packet)) :
    runLoop (ps ++ qs) =
      runLoop ps >>= (fun ws => runLoop qs >>= fun ws2 => .ok (ws ++ ws2)) ∧
    (∀ e, runLoop ps = .err e → runLoop (ps ++ qs) = .err e) ∧
    (∀ t, runLoop ps = .panic t → runLoop (ps ++ qs) = .panic t) ∧
    (∀ ws, runLoop ps = .ok ws → ∀ o ∈ ps, ∃ ws2, loopBody o = .ok ws2) := by
  refine ⟨runLoop_append ps qs, ?_, ?_, ?_⟩
  · intro e he
    rw [runLoop_append, he]
    rfl
  · intro t ht
    rw [runLoop_append, ht]
    rfl
  · intro ws hws
    exact runLoop_ok_elim hws

/-- Witness for C8: a panic on the first packet is fatal — the following
input is never processed. -/
theorem loop_fatal_composition_witness :
    runLoop ([some pImuMissing] ++ [none]) = .panic 0x04 :=
  (loop_fatal_composition [some pImuMissing] [none]).2.2.1 0x04 (by decide)

/-- C9 (extractor modelled from the spec, the implementation living in the
external `lordserial` crate): within bounds, `extract` returns exactly the
little-endian decoding of the `size` bytes at `offset` — and depends on no
byte outside that window — while a field shorter than `offset + size`
fails with `OutOfBounds`; moreover the little-endian round-trip holds:
extracting at the position of an encoded value returns that value (mod
2^(8·size)). -/
theorem extract_le_semantics (f : Field) (off size : Nat) :
    (off + size ≤ f.data.length →
      f.extractBits off size = .ok (leDecode ((f.data.drop off).take size)) ∧
      ∀ g : Field, off + size ≤ g.data.length →
        (g.data.drop off).take size = (f.data.drop off).take size →
        g.extractBits off size = f.extractBits off size) ∧
    (f.data.length < off + size → f.extractBits off size = .error .outOfBounds) ∧
    (∀ pre post : List Nat, ∀ n : Nat,
      (Field.mk (pre ++ (leEncode size n ++ post))).extractBits pre.length size =
        .ok (n % 2 ^ (8 * size))) := by
  refine ⟨fun hb => ⟨?_, ?_⟩, fun hs => ?_, fun pre post n => ?_⟩
  · simp [Field.extractBits, if_pos hb]
  · intro g hgb hw
    simp [Field.extractBits, if_pos hb, if_pos hgb, hw]
  · simp [Field.extractBits, if_neg (by omega : ¬ (off + size ≤ f.data.length))]
  · have hlen : (leEncode size n).length = size := leEncode_length size n
    have hb2 : pre.length + size ≤ (pre ++ (leEncode size n ++ post)).length := by
      rw [List.length_append, List.length_append, hlen]
      omega
    simp only [Field.extractBits, if_pos hb2]
    rw [List.drop_left, List.take_left' hlen, leDecode_leEncode]

/-- Witness for C9: an in-bounds two-byte read decodes little-endian, and a
one-byte-short field fails with `OutOfBounds`. -/
theorem extract_le_semantics_witness :
    (Field.mk [7, 1, 2]).extractBits 1 2 = .ok 513 ∧
    (Field.mk [7, 1]).extractBits 1 2 = .error .outOfBounds := by
  refine ⟨?_, ?_⟩
  · exact (((extract_le_semantics (Field.mk [7, 1, 2]) 1 2).1 (by decide)).1).trans (by decide)
  · exact (extract_le_semantics (Field.mk [7, 1]) 1 2).2.1 (by decide)

/-- C10: the fix-quality field 0x0B is read as an 8-bit signed integer at
offset 0 (fix type), an 8-bit signed integer at offset 1 (satellite
count), a 16-bit signed integer at offset 2 (fix flags), and a 16-bit
signed integer at offset 4 (fix validity); extraction succeeds only when
the field holds at least 6 bytes. -/
theorem fix_quality_layout (p : Packet) :
    (∀ ps, gnssParams p = .ok ps →
      ∃ f, p.payload.get_field 0x0B = some f ∧ 6 ≤ f.data.length ∧
        ps.get? 37 = some (.i16 (toSigned 8 (f.data.getD 0 0))) ∧
        ps.get? 38 = some (.i16 (toSigned 8 (f.data.getD 1 0))) ∧
        ∃ v40 v41 : Int, f.extractI16 2 = .ok v40 ∧ f.extractI16 4 = .ok v41 ∧
          ps.get? 39 = some (.i16 v40) ∧ ps.get? 40 = some (.i16 v41)) ∧
    (∀ f, p.payload.get_field 0x0B = some f → f.data.length < 6 →
      ∀ ps, gnssParams p ≠ .ok ps) := by
  constructor
  · intro ps h
    obtain ⟨f, hf, v38, v39, v40, v41, hv38, hv39, hv40, hv41, hp37, hp38, hp39, hp40⟩ :=
      gnssParams_get0B h
    refine ⟨f, hf, extractI16_ok_bound hv41, ?_, ?_, v40, v41, hv40, hv41, hp39, hp40⟩
    · rw [hp37, extractI8_getD hv38]
    · rw [hp38, extractI8_getD hv39]
  · intro f hf hshort ps hok
    obtain ⟨f2, hf2, v38, v39, v40, v41, hv38, hv39, hv40, hv41, _, _, _, _⟩ :=
      gnssParams_get0B hok
    rw [hf] at hf2
    injection hf2 with hf2
    subst hf2
    have hb := extractI16_ok_bound hv41
    omega

/-- Witness for C10: a 5-byte fix-quality field makes the GNSS extraction
fail. -/
theorem fix_quality_layout_witness :
    gnssParams pGnssShort ≠ .ok [] :=
  (fix_quality_layout pGnssShort).2 (Field.mk [0, 0, 0, 0, 0]) (by decide) (by decide) []


end Lord
